import Mathlib

/-!
Shallow embedding of `terraform/aws-cleanup/cleanup.py` (AWS Resource
Cleanup Lambda).  Provider responses are modelled as explicit input state;
a fallible provider call is modelled with `Except String` / `Option String`
(the error value is the raised exception's message).  Destructive provider
calls (delete / deregister / release) are reified as an `ApiCall` trace.
Timestamps are integers (seconds since the epoch); the two `datetime.now`
readings of the script are the `ts` argument of the sweep (recorded in the
summary) and the `now` field of the configuration (used by the age check).
Money amounts are rationals.
-/

namespace AwsCleanup

/-- Model of Python's `str.startswith`: prefix test on the character list. -/
def startswith (s p : String) : Bool :=
  p.toList.isPrefixOf s.toList

/-- Model of Python's `str.split(sep)` for a one-character separator:
`"".split(",") == [""]`, and separators delimit (possibly empty) fields. -/
def splitCharAux (sep : Char) : List Char → List Char → List String
  | [], acc => [String.mk acc.reverse]
  | c :: cs, acc =>
      if c = sep then String.mk acc.reverse :: splitCharAux sep cs []
      else splitCharAux sep cs (c :: acc)

/-- Python `s.split(sep)` with a single-character separator. -/
def pySplit (sep : Char) (s : String) : List String :=
  splitCharAux sep s.toList []

/-- Python `a or b` over optional strings (`None` and `""` are falsy);
the result is `""` when both operands are falsy. -/
def pyor (a b : Option String) : String :=
  match a with
  | some s => if s = "" then b.getD "" else s
  | none => b.getD ""

/-- Python `str(x)` for an optional string, as rendered inside f-strings. -/
def pyShowOpt (a : Option String) : String :=
  match a with
  | some s => s
  | none => "None"

/-- Environment-derived configuration of the sweep (module constants
`DRY_RUN`, `AGE_THRESHOLD_DAYS`, the twelve `CLEAN_*` flags,
`WHITELIST_TAGS`, `WHITELIST_PREFIXES`, `SNS_TOPIC_ARN`, `REGION`),
plus the clock reading used by `is_old_enough`. -/
structure SweepConfig where
  dry_run : Bool
  age_threshold_days : Int
  now : Int
  whitelist_tags : List String
  whitelist_prefixes : List String
  clean_ebs_volumes : Bool
  clean_ebs_snapshots : Bool
  clean_elastic_ips : Bool
  clean_load_balancers : Bool
  clean_nat_gateways : Bool
  clean_rds_snapshots : Bool
  clean_ami_images : Bool
  clean_ecr_images : Bool
  clean_cloudwatch_logs : Bool
  clean_s3_buckets : Bool
  clean_security_groups : Bool
  clean_lambda_functions : Bool
  sns_topic_arn : Option String
  region : String
  deriving Repr, DecidableEq

/-- `is_whitelisted(resource_name, tags)` (cleanup.py lines 121-134):
a non-empty configured prefix that `resource_name` starts with, or — when
the tag dict is truthy (non-empty) — a non-empty configured tag key present
among the tag keys, whitelists the resource.  Tag dicts are modelled as
association lists of `(Key, Value)` pairs. -/
def is_whitelisted (cfg : SweepConfig) (resource_name : String)
    (tags : List (String × String)) : Bool :=
  if cfg.whitelist_prefixes.any (fun p => !(p == "") && startswith resource_name p) then
    true
  else if !tags.isEmpty &&
      cfg.whitelist_tags.any (fun k => !(k == "") && tags.any (fun q => q.1 == k)) then
    true
  else
    false

/-- `is_old_enough(create_time)` (cleanup.py lines 136-145): a missing
timestamp counts as old enough; otherwise the age in whole days
(`timedelta.days`, i.e. floor division of the second difference by 86400)
must reach `AGE_THRESHOLD_DAYS`. -/
def is_old_enough (cfg : SweepConfig) (create_time : Option Int) : Bool :=
  match create_time with
  | none => true
  | some t => decide (cfg.age_threshold_days ≤ (cfg.now - t).fdiv 86400)

deriving instance DecidableEq for Except

/-- Destructive provider call issued by the sweep (delete / deregister /
release operations; the SNS publish is modelled separately). -/
inductive ApiCall where
  | deleteVolume (volumeId : String)
  | deleteSnapshot (snapshotId : String)
  | releaseAddress (addr : String)
  | deleteLoadBalancer (arn : String)
  | deleteNatGateway (natId : String)
  | deleteDbSnapshot (id : String)
  | deleteDbClusterSnapshot (id : String)
  | deregisterImage (imageId : String)
  | batchDeleteImage (repo : String) (digests : List String)
  | deleteLogGroup (name : String)
  | deleteBucket (name : String)
  | deleteSecurityGroup (id : String)
  | deleteFunction (name ver : String)
  deriving Repr, DecidableEq

/-- EBS volume record as consumed by `cleanup_ebs_volumes`.  `deleteErr`
is the message `ec2.delete_volume` would raise, `none` when it succeeds. -/
structure Volume where
  volumeId : String
  status : String
  tags : List (String × String)
  createTime : Option Int
  size : Nat
  deleteErr : Option String
  deriving Repr, DecidableEq

/-- EBS snapshot record as consumed by `cleanup_ebs_snapshots`. -/
structure Snapshot where
  snapshotId : String
  description : String
  tags : List (String × String)
  startTime : Option Int
  volumeSize : Option Nat
  deleteErr : Option String
  deriving Repr, DecidableEq

/-- Elastic IP record as consumed by `cleanup_elastic_ips`. -/
structure Address where
  allocationId : Option String
  publicIp : Option String
  instanceId : Option String
  networkInterfaceId : Option String
  tags : List (String × String)
  releaseErr : Option String
  deriving Repr, DecidableEq

/-- One target group of a load balancer; `healthQuery` models
`elb.describe_target_health` returning the list of target-health states
(or raising). -/
structure TargetGroup where
  targetGroupArn : String
  healthQuery : Except String (List String)
  deriving Repr, DecidableEq

/-- Load balancer record; `targetGroups` models
`elb.describe_target_groups` (or its raising). -/
structure LoadBalancer where
  loadBalancerArn : String
  loadBalancerName : String
  createdTime : Option Int
  targetGroups : Except String (List TargetGroup)
  deleteErr : Option String
  deriving Repr, DecidableEq

/-- NAT gateway record as consumed by `cleanup_nat_gateways`. -/
structure NatGateway where
  natGatewayId : String
  state : String
  tags : List (String × String)
  createTime : Option Int
  deleteErr : Option String
  deriving Repr, DecidableEq

/-- Manual RDS DB snapshot record. -/
structure DBSnapshot where
  dbSnapshotIdentifier : String
  snapshotCreateTime : Option Int
  deleteErr : Option String
  deriving Repr, DecidableEq

/-- Manual RDS DB cluster snapshot record. -/
structure DBClusterSnapshot where
  dbClusterSnapshotIdentifier : String
  snapshotCreateTime : Option Int
  deleteErr : Option String
  deriving Repr, DecidableEq

/-- AMI record; `snapshotIds` collects the `SnapshotId` of each EBS block
device mapping, `deregisterErr` models `ec2.deregister_image` raising. -/
structure AmiImage where
  imageId : String
  name : String
  tags : List (String × String)
  creationDate : Int
  snapshotIds : List String
  deregisterErr : Option String
  deriving Repr, DecidableEq

/-- One ECR image id entry (`imageTag` is absent for untagged images). -/
structure EcrImage where
  imageTag : Option String
  imageDigest : String
  deriving Repr, DecidableEq

/-- ECR repository; `listImages` models `ecr.list_images` (or raising),
`batchDeleteErr` models `ecr.batch_delete_image` raising. -/
structure EcrRepo where
  repositoryName : String
  listImages : Except String (List EcrImage)
  batchDeleteErr : Option String
  deriving Repr, DecidableEq

/-- CloudWatch log group; `lastEventTime` is `lastEventTimestamp` already
scaled from milliseconds to epoch seconds, `streams` the (limit 1) page of
`describe_log_streams`. -/
structure LogGroup where
  logGroupName : String
  lastEventTime : Option Int
  streams : List String
  deleteErr : Option String
  deriving Repr, DecidableEq

/-- S3 bucket; `objectsQuery` models `list_objects_v2` — `ok b` says
whether `Contents` is present (the bucket holds at least one object),
`error` models the call raising (the bucket is then skipped). -/
structure Bucket where
  name : String
  creationDate : Option Int
  objectsQuery : Except String Bool
  deleteErr : Option String
  deriving Repr, DecidableEq

/-- EC2 security group record. -/
structure SecurityGroup where
  groupId : String
  groupName : String
  tags : List (String × String)
  deleteErr : Option String
  deriving Repr, DecidableEq

/-- Joint response of `describe_security_groups` and
`describe_network_interfaces`: the groups plus the set of group ids
attached to some network interface. -/
structure SgData where
  groups : List SecurityGroup
  usedGroupIds : List String
  deriving Repr, DecidableEq

/-- One Lambda function version; `deleteErr` models
`lambda_client.delete_function` raising for this version. -/
structure LambdaVersion where
  version : String
  deleteErr : Option String
  deriving Repr, DecidableEq

/-- Lambda function; `versions` models `list_versions_by_function`
(or raising — the function is then silently skipped). -/
structure LambdaFunction where
  functionName : String
  versions : Except String (List LambdaVersion)
  deriving Repr, DecidableEq

/-- The provider-side world visible to one sweep: each field models the
primary list/describe call of one handler (an `error` value models that
call raising). -/
structure ProviderState where
  volumes : Except String (List Volume)
  snapshots : Except String (List Snapshot)
  addresses : Except String (List Address)
  loadBalancers : Except String (List LoadBalancer)
  natGateways : Except String (List NatGateway)
  dbSnapshots : Except String (List DBSnapshot)
  dbClusterSnapshots : Except String (List DBClusterSnapshot)
  amiImages : Except String (List AmiImage)
  ecrRepos : Except String (List EcrRepo)
  logGroups : Except String (List LogGroup)
  buckets : Except String (List Bucket)
  securityGroups : Except String SgData
  lambdaFunctions : Except String (List LambdaFunction)
  deriving Repr

/-- The `cleanup_summary` dict: per-kind found / deleted counters
(association lists in insertion order), the running savings estimate and
the ordered error strings. -/
structure SweepSummary where
  timestamp : Int
  dry_run : Bool
  resources_found : List (String × Nat)
  resources_deleted : List (String × Nat)
  estimated_monthly_savings : ℚ
  errors : List String
  deriving Repr, DecidableEq

/-- Net effect of one kind handler on the summary, plus its trace of
destructive calls. -/
structure HandlerOut where
  found : List (String × Nat)
  deleted : List (String × Nat)
  savings : ℚ
  errs : List String
  calls : List ApiCall
  deriving Repr, DecidableEq

/-- Accumulator of the per-record loop of the simple handlers:
identifiers tallied for deletion, a kind-specific size total, error
strings and issued calls, all in source order. -/
structure LoopOut where
  toDelete : List String
  total : Nat
  errs : List String
  calls : List ApiCall
  deriving Repr, DecidableEq

/-- Per-volume loop of `cleanup_ebs_volumes` (lines 159-179). -/
def ebsVolumesLoop (cfg : SweepConfig) : List Volume → LoopOut
  | [] => ⟨[], 0, [], []⟩
  | v :: vs =>
      let rest := ebsVolumesLoop cfg vs
      if is_whitelisted cfg v.volumeId v.tags then rest
      else if !is_old_enough cfg v.createTime then rest
      else
        ⟨v.volumeId :: rest.toDelete, v.size + rest.total,
         (if cfg.dry_run then []
          else match v.deleteErr with
            | some e => ["Failed to delete volume " ++ v.volumeId ++ ": " ++ e]
            | none => []) ++ rest.errs,
         (if cfg.dry_run then [] else [ApiCall.deleteVolume v.volumeId]) ++ rest.calls⟩

/-- `cleanup_ebs_volumes` (lines 147-186); `describe_volumes` filters on
`status = available` provider-side. -/
def cleanup_ebs_volumes (cfg : SweepConfig)
    (volumes : Except String (List Volume)) : HandlerOut :=
  match volumes with
  | .error e => ⟨[], [], 0, ["EBS volume cleanup error: " ++ e], []⟩
  | .ok vols =>
      let r := ebsVolumesLoop cfg (vols.filter (fun v => v.status == "available"))
      ⟨[("ebs_volumes", r.toDelete.length)],
       [("ebs_volumes", if !cfg.dry_run then r.toDelete.length else 0)],
       (r.total : ℚ) * 0.10, r.errs, r.calls⟩

/-- Per-snapshot loop of `cleanup_ebs_snapshots` (lines 196-220). -/
def ebsSnapshotsLoop (cfg : SweepConfig) : List Snapshot → LoopOut
  | [] => ⟨[], 0, [], []⟩
  | s :: ss =>
      let rest := ebsSnapshotsLoop cfg ss
      if startswith s.description "Created by CreateImage" then rest
      else if is_whitelisted cfg s.snapshotId s.tags then rest
      else if !is_old_enough cfg s.startTime then rest
      else
        ⟨s.snapshotId :: rest.toDelete, s.volumeSize.getD 0 + rest.total,
         (if cfg.dry_run then []
          else match s.deleteErr with
            | some e => ["Failed to delete snapshot " ++ s.snapshotId ++ ": " ++ e]
            | none => []) ++ rest.errs,
         (if cfg.dry_run then [] else [ApiCall.deleteSnapshot s.snapshotId]) ++ rest.calls⟩

/-- `cleanup_ebs_snapshots` (lines 188-227). -/
def cleanup_ebs_snapshots (cfg : SweepConfig)
    (snapshots : Except String (List Snapshot)) : HandlerOut :=
  match snapshots with
  | .error e => ⟨[], [], 0, ["EBS snapshot cleanup error: " ++ e], []⟩
  | .ok ss =>
      let r := ebsSnapshotsLoop cfg ss
      ⟨[("ebs_snapshots", r.toDelete.length)],
       [("ebs_snapshots", if !cfg.dry_run then r.toDelete.length else 0)],
       (r.total : ℚ) * 0.05, r.errs, r.calls⟩

/-- Per-address loop of `cleanup_elastic_ips` (lines 236-259). -/
def elasticIpsLoop (cfg : SweepConfig) : List Address → LoopOut
  | [] => ⟨[], 0, [], []⟩
  | a :: rest_addrs =>
      let rest := elasticIpsLoop cfg rest_addrs
      if a.instanceId.isSome || a.networkInterfaceId.isSome then rest
      else if is_whitelisted cfg (pyor a.publicIp a.allocationId) a.tags then rest
      else
        ⟨pyor a.allocationId a.publicIp :: rest.toDelete, rest.total,
         (if cfg.dry_run then []
          else match a.releaseErr with
            | some e => ["Failed to release EIP " ++ pyShowOpt a.publicIp ++ ": " ++ e]
            | none => []) ++ rest.errs,
         (if cfg.dry_run then [] else [ApiCall.releaseAddress (pyor a.allocationId a.publicIp)])
           ++ rest.calls⟩

/-- `cleanup_elastic_ips` (lines 229-266). -/
def cleanup_elastic_ips (cfg : SweepConfig)
    (addresses : Except String (List Address)) : HandlerOut :=
  match addresses with
  | .error e => ⟨[], [], 0, ["Elastic IP cleanup error: " ++ e], []⟩
  | .ok addrs =>
      let r := elasticIpsLoop cfg addrs
      ⟨[("elastic_ips", r.toDelete.length)],
       [("elastic_ips", if !cfg.dry_run then r.toDelete.length else 0)],
       (r.toDelete.length : ℚ) * 3.60, r.errs, r.calls⟩

/-- The `has_targets` scan of `cleanup_load_balancers` (lines 289-296):
`none` models `describe_target_health` raising (the bare `except` then
skips the load balancer), `some true` a target group with at least one
target-health description, `some false` none anywhere. -/
def checkTargets : List TargetGroup → Option Bool
  | [] => some false
  | tg :: rest =>
      match tg.healthQuery with
      | .error _ => none
      | .ok hs => if !hs.isEmpty then some true else checkTargets rest

/-- Per-load-balancer loop of `cleanup_load_balancers` (lines 275-315). -/
def loadBalancersLoop (cfg : SweepConfig) : List LoadBalancer → LoopOut
  | [] => ⟨[], 0, [], []⟩
  | lb :: lbs =>
      let rest := loadBalancersLoop cfg lbs
      if is_whitelisted cfg lb.loadBalancerName [] then rest
      else
        match lb.targetGroups with
        | .error _ => rest
        | .ok tgs =>
            match checkTargets tgs with
            | none => rest
            | some true => rest
            | some false =>
                if !is_old_enough cfg lb.createdTime then rest
                else
                  ⟨lb.loadBalancerArn :: rest.toDelete, rest.total,
                   (if cfg.dry_run then []
                    else match lb.deleteErr with
                      | some e => ["Failed to delete LB " ++ lb.loadBalancerName ++ ": " ++ e]
                      | none => []) ++ rest.errs,
                   (if cfg.dry_run then [] else [ApiCall.deleteLoadBalancer lb.loadBalancerArn])
                     ++ rest.calls⟩

/-- `cleanup_load_balancers` (lines 268-322). -/
def cleanup_load_balancers (cfg : SweepConfig)
    (lbs : Except String (List LoadBalancer)) : HandlerOut :=
  match lbs with
  | .error e => ⟨[], [], 0, ["Load balancer cleanup error: " ++ e], []⟩
  | .ok l =>
      let r := loadBalancersLoop cfg l
      ⟨[("load_balancers", r.toDelete.length)],
       [("load_balancers", if !cfg.dry_run then r.toDelete.length else 0)],
       (r.toDelete.length : ℚ) * 22.50, r.errs, r.calls⟩

/-- Per-gateway loop of `cleanup_nat_gateways` (lines 335-354). -/
def natGatewaysLoop (cfg : SweepConfig) : List NatGateway → LoopOut
  | [] => ⟨[], 0, [], []⟩
  | n :: ns =>
      let rest := natGatewaysLoop cfg ns
      if is_whitelisted cfg n.natGatewayId n.tags then rest
      else if !is_old_enough cfg n.createTime then rest
      else
        ⟨n.natGatewayId :: rest.toDelete, rest.total,
         (if cfg.dry_run then []
          else match n.deleteErr with
            | some e => ["Failed to delete NAT " ++ n.natGatewayId ++ ": " ++ e]
            | none => []) ++ rest.errs,
         (if cfg.dry_run then [] else [ApiCall.deleteNatGateway n.natGatewayId]) ++ rest.calls⟩

/-- `cleanup_nat_gateways` (lines 324-361); `describe_nat_gateways`
filters on `state = available` provider-side. -/
def cleanup_nat_gateways (cfg : SweepConfig)
    (nats : Except String (List NatGateway)) : HandlerOut :=
  match nats with
  | .error e => ⟨[], [], 0, ["NAT gateway cleanup error: " ++ e], []⟩
  | .ok ns =>
      let r := natGatewaysLoop cfg (ns.filter (fun n => n.state == "available"))
      ⟨[("nat_gateways", r.toDelete.length)],
       [("nat_gateways", if !cfg.dry_run then r.toDelete.length else 0)],
       (r.toDelete.length : ℚ) * 45, r.errs, r.calls⟩

/-- Per-DB-snapshot loop of `cleanup_rds_snapshots` (lines 371-389). -/
def rdsDbLoop (cfg : SweepConfig) : List DBSnapshot → LoopOut
  | [] => ⟨[], 0, [], []⟩
  | s :: ss =>
      let rest := rdsDbLoop cfg ss
      if is_whitelisted cfg s.dbSnapshotIdentifier [] then rest
      else if !is_old_enough cfg s.snapshotCreateTime then rest
      else
        ⟨s.dbSnapshotIdentifier :: rest.toDelete, rest.total,
         (if cfg.dry_run then []
          else match s.deleteErr with
            | some e =>
                ["Failed to delete RDS snapshot " ++ s.dbSnapshotIdentifier ++ ": " ++ e]
            | none => []) ++ rest.errs,
         (if cfg.dry_run then [] else [ApiCall.deleteDbSnapshot s.dbSnapshotIdentifier])
           ++ rest.calls⟩

/-- Per-cluster-snapshot loop of `cleanup_rds_snapshots` (lines 394-410). -/
def rdsClusterLoop (cfg : SweepConfig) : List DBClusterSnapshot → LoopOut
  | [] => ⟨[], 0, [], []⟩
  | s :: ss =>
      let rest := rdsClusterLoop cfg ss
      if is_whitelisted cfg s.dbClusterSnapshotIdentifier [] then rest
      else if !is_old_enough cfg s.snapshotCreateTime then rest
      else
        ⟨s.dbClusterSnapshotIdentifier :: rest.toDelete, rest.total,
         (if cfg.dry_run then []
          else match s.deleteErr with
            | some e =>
                ["Failed to delete cluster snapshot " ++ s.dbClusterSnapshotIdentifier
                  ++ ": " ++ e]
            | none => []) ++ rest.errs,
         (if cfg.dry_run then []
          else [ApiCall.deleteDbClusterSnapshot s.dbClusterSnapshotIdentifier]) ++ rest.calls⟩

/-- `cleanup_rds_snapshots` (lines 363-417): DB snapshots then cluster
snapshots share one tally and one `try`; a raising cluster describe keeps
the per-record errors already appended but sets no counters. -/
def cleanup_rds_snapshots (cfg : SweepConfig)
    (dbSnaps : Except String (List DBSnapshot))
    (clusterSnaps : Except String (List DBClusterSnapshot)) : HandlerOut :=
  match dbSnaps with
  | .error e => ⟨[], [], 0, ["RDS snapshot cleanup error: " ++ e], []⟩
  | .ok ds =>
      let r1 := rdsDbLoop cfg ds
      match clusterSnaps with
      | .error e =>
          ⟨[], [], 0, r1.errs ++ ["RDS snapshot cleanup error: " ++ e], r1.calls⟩
      | .ok cs =>
          let r2 := rdsClusterLoop cfg cs
          ⟨[("rds_snapshots", r1.toDelete.length + r2.toDelete.length)],
           [("rds_snapshots",
             if !cfg.dry_run then r1.toDelete.length + r2.toDelete.length else 0)],
           ((r1.toDelete.length + r2.toDelete.length : Nat) : ℚ) * 5,
           r1.errs ++ r2.errs, r1.calls ++ r2.calls⟩

/-- Per-image loop of `cleanup_ami_images` (lines 426-456): on a
successful deregister the backing snapshots are deleted best-effort
(failures swallowed, calls still issued). -/
def amiImagesLoop (cfg : SweepConfig) : List AmiImage → LoopOut
  | [] => ⟨[], 0, [], []⟩
  | im :: ims =>
      let rest := amiImagesLoop cfg ims
      if is_whitelisted cfg im.name im.tags then rest
      else if !is_old_enough cfg (some im.creationDate) then rest
      else
        ⟨im.imageId :: rest.toDelete, rest.total,
         (if cfg.dry_run then []
          else match im.deregisterErr with
            | some e => ["Failed to deregister AMI " ++ im.imageId ++ ": " ++ e]
            | none => []) ++ rest.errs,
         (if cfg.dry_run then []
          else ApiCall.deregisterImage im.imageId ::
            (match im.deregisterErr with
             | some _ => []
             | none => im.snapshotIds.map ApiCall.deleteSnapshot)) ++ rest.calls⟩

/-- `cleanup_ami_images` (lines 419-463). -/
def cleanup_ami_images (cfg : SweepConfig)
    (images : Except String (List AmiImage)) : HandlerOut :=
  match images with
  | .error e => ⟨[], [], 0, ["AMI cleanup error: " ++ e], []⟩
  | .ok ims =>
      let r := amiImagesLoop cfg ims
      ⟨[("ami_images", r.toDelete.length)],
       [("ami_images", if !cfg.dry_run then r.toDelete.length else 0)],
       (r.toDelete.length : ℚ) * 2, r.errs, r.calls⟩

/-- The protected ECR tags of line 487. -/
def protectedTags : List String := ["latest", "prod", "production", "stable"]

/-- The per-image filter of the ECR loop (lines 482-490): untagged images
are skipped (`continue` when `imageTag` is absent), as are protected tags. -/
def nonProtectedTagged (i : EcrImage) : Bool :=
  match i.imageTag with
  | some t => !protectedTags.contains t
  | none => false

/-- `images_to_delete` of `cleanup_ecr_images` (lines 481-494): the
candidate list, truncated by `[:-10]` (keep the last ten listed) — and
empty when at most ten candidates exist, since the delete-and-tally block
is guarded by `len(images_to_delete) > 10`. -/
def ecrCandidates (imgs : List EcrImage) : List EcrImage :=
  imgs.filter nonProtectedTagged

/-- Effective ECR deletion list per repository. -/
def ecrToDelete (imgs : List EcrImage) : List EcrImage :=
  let c := ecrCandidates imgs
  if 10 < c.length then c.take (c.length - 10) else []

/-- Accumulator for the counting handlers (ECR images, Lambda versions). -/
structure CountOut where
  count : Nat
  errs : List String
  calls : List ApiCall
  deriving Repr, DecidableEq

/-- Per-repository loop of `cleanup_ecr_images` (lines 472-506): a
raising `list_images` or `batch_delete_image` yields one repo-scoped
error and skips the tally increment. -/
def ecrReposLoop (cfg : SweepConfig) : List EcrRepo → CountOut
  | [] => ⟨0, [], []⟩
  | r :: rs =>
      let rest := ecrReposLoop cfg rs
      if is_whitelisted cfg r.repositoryName [] then rest
      else
        match r.listImages with
        | .error e =>
            ⟨rest.count,
             ("Failed to clean ECR repo " ++ r.repositoryName ++ ": " ++ e) :: rest.errs,
             rest.calls⟩
        | .ok imgs =>
            if (ecrCandidates imgs).length ≤ 10 then rest
            else if cfg.dry_run then
              ⟨(ecrToDelete imgs).length + rest.count, rest.errs, rest.calls⟩
            else
              match r.batchDeleteErr with
              | some e =>
                  ⟨rest.count,
                   ("Failed to clean ECR repo " ++ r.repositoryName ++ ": " ++ e)
                     :: rest.errs,
                   ApiCall.batchDeleteImage r.repositoryName
                       ((ecrToDelete imgs).map (fun i => i.imageDigest)) :: rest.calls⟩
              | none =>
                  ⟨(ecrToDelete imgs).length + rest.count, rest.errs,
                   ApiCall.batchDeleteImage r.repositoryName
                       ((ecrToDelete imgs).map (fun i => i.imageDigest)) :: rest.calls⟩

/-- `cleanup_ecr_images` (lines 465-512). -/
def cleanup_ecr_images (cfg : SweepConfig)
    (repos : Except String (List EcrRepo)) : HandlerOut :=
  match repos with
  | .error e => ⟨[], [], 0, ["ECR cleanup error: " ++ e], []⟩
  | .ok rs =>
      let a := ecrReposLoop cfg rs
      ⟨[("ecr_images", a.count)],
       [("ecr_images", if !cfg.dry_run then a.count else 0)],
       0, a.errs, a.calls⟩

/-- Per-log-group loop of `cleanup_cloudwatch_logs` (lines 521-547):
the age check runs only when `lastEventTimestamp` is present; only
stream-less groups are deleted. -/
def logGroupsLoop (cfg : SweepConfig) : List LogGroup → LoopOut
  | [] => ⟨[], 0, [], []⟩
  | g :: gs =>
      let rest := logGroupsLoop cfg gs
      if is_whitelisted cfg g.logGroupName [] then rest
      else if (match g.lastEventTime with
               | some t => !is_old_enough cfg (some t)
               | none => false) then rest
      else if !g.streams.isEmpty then rest
      else
        ⟨g.logGroupName :: rest.toDelete, rest.total,
         (if cfg.dry_run then []
          else match g.deleteErr with
            | some e => ["Failed to delete log group " ++ g.logGroupName ++ ": " ++ e]
            | none => []) ++ rest.errs,
         (if cfg.dry_run then [] else [ApiCall.deleteLogGroup g.logGroupName]) ++ rest.calls⟩

/-- `cleanup_cloudwatch_logs` (lines 514-553). -/
def cleanup_cloudwatch_logs (cfg : SweepConfig)
    (groups : Except String (List LogGroup)) : HandlerOut :=
  match groups with
  | .error e => ⟨[], [], 0, ["CloudWatch logs cleanup error: " ++ e], []⟩
  | .ok gs =>
      let r := logGroupsLoop cfg gs
      ⟨[("cloudwatch_logs", r.toDelete.length)],
       [("cloudwatch_logs", if !cfg.dry_run then r.toDelete.length else 0)],
       0, r.errs, r.calls⟩

/-- Per-bucket loop of `cleanup_empty_s3_buckets` (lines 562-588): a
raising `list_objects_v2` skips the bucket; only empty, old buckets are
deleted. -/
def bucketsLoop (cfg : SweepConfig) : List Bucket → LoopOut
  | [] => ⟨[], 0, [], []⟩
  | b :: bs =>
      let rest := bucketsLoop cfg bs
      if is_whitelisted cfg b.name [] then rest
      else
        match b.objectsQuery with
        | .error _ => rest
        | .ok hasContents =>
            if hasContents then rest
            else if !is_old_enough cfg b.creationDate then rest
            else
              ⟨b.name :: rest.toDelete, rest.total,
               (if cfg.dry_run then []
                else match b.deleteErr with
                  | some e => ["Failed to delete bucket " ++ b.name ++ ": " ++ e]
                  | none => []) ++ rest.errs,
               (if cfg.dry_run then [] else [ApiCall.deleteBucket b.name]) ++ rest.calls⟩

/-- `cleanup_empty_s3_buckets` (lines 555-594). -/
def cleanup_empty_s3_buckets (cfg : SweepConfig)
    (buckets : Except String (List Bucket)) : HandlerOut :=
  match buckets with
  | .error e => ⟨[], [], 0, ["S3 cleanup error: " ++ e], []⟩
  | .ok bs =>
      let r := bucketsLoop cfg bs
      ⟨[("s3_buckets", r.toDelete.length)],
       [("s3_buckets", if !cfg.dry_run then r.toDelete.length else 0)],
       0, r.errs, r.calls⟩

/-- Per-group loop of `cleanup_security_groups` (lines 610-634). -/
def securityGroupsLoop (cfg : SweepConfig) (used : List String) :
    List SecurityGroup → LoopOut
  | [] => ⟨[], 0, [], []⟩
  | g :: gs =>
      let rest := securityGroupsLoop cfg used gs
      if g.groupName == "default" then rest
      else if used.contains g.groupId then rest
      else if is_whitelisted cfg g.groupName g.tags then rest
      else
        ⟨g.groupId :: rest.toDelete, rest.total,
         (if cfg.dry_run then []
          else match g.deleteErr with
            | some e => ["Failed to delete SG " ++ g.groupId ++ ": " ++ e]
            | none => []) ++ rest.errs,
         (if cfg.dry_run then [] else [ApiCall.deleteSecurityGroup g.groupId]) ++ rest.calls⟩

/-- `cleanup_security_groups` (lines 596-640). -/
def cleanup_security_groups (cfg : SweepConfig)
    (sgData : Except String SgData) : HandlerOut :=
  match sgData with
  | .error e => ⟨[], [], 0, ["Security group cleanup error: " ++ e], []⟩
  | .ok d =>
      let r := securityGroupsLoop cfg d.usedGroupIds d.groups
      ⟨[("security_groups", r.toDelete.length)],
       [("security_groups", if !cfg.dry_run then r.toDelete.length else 0)],
       0, r.errs, r.calls⟩

/-- Per-version loop of `cleanup_old_lambda_versions` (lines 666-678): in
a real run only a successful delete is tallied; in dry-run every
candidate version is tallied. -/
def lambdaVersionsLoop (cfg : SweepConfig) (fn : String) :
    List LambdaVersion → CountOut
  | [] => ⟨0, [], []⟩
  | v :: vs =>
      let rest := lambdaVersionsLoop cfg fn vs
      if cfg.dry_run then ⟨1 + rest.count, rest.errs, rest.calls⟩
      else
        match v.deleteErr with
        | some e =>
            ⟨rest.count,
             ("Failed to delete Lambda version " ++ fn ++ ":" ++ v.version ++ ": " ++ e)
               :: rest.errs,
             ApiCall.deleteFunction fn v.version :: rest.calls⟩
        | none =>
            ⟨1 + rest.count, rest.errs, ApiCall.deleteFunction fn v.version :: rest.calls⟩

/-- Per-function loop of `cleanup_old_lambda_versions` (lines 649-681):
`[:-3]` keeps the three last-listed versions, `$LATEST` is never deleted,
and a raising `list_versions_by_function` silently skips the function. -/
def lambdaFunctionsLoop (cfg : SweepConfig) : List LambdaFunction → CountOut
  | [] => ⟨0, [], []⟩
  | f :: fs =>
      let rest := lambdaFunctionsLoop cfg fs
      if is_whitelisted cfg f.functionName [] then rest
      else
        match f.versions with
        | .error _ => rest
        | .ok vers =>
            let a := lambdaVersionsLoop cfg f.functionName
              ((vers.take (vers.length - 3)).filter (fun v => !(v.version == "$LATEST")))
            ⟨a.count + rest.count, a.errs ++ rest.errs, a.calls ++ rest.calls⟩

/-- `cleanup_old_lambda_versions` (lines 642-687). -/
def cleanup_old_lambda_versions (cfg : SweepConfig)
    (fns : Except String (List LambdaFunction)) : HandlerOut :=
  match fns with
  | .error e => ⟨[], [], 0, ["Lambda cleanup error: " ++ e], []⟩
  | .ok fs =>
      let a := lambdaFunctionsLoop cfg fs
      ⟨[("lambda_versions", a.count)],
       [("lambda_versions", if !cfg.dry_run then a.count else 0)],
       0, a.errs, a.calls⟩

/-- The eleven resource kinds swept by `handler`, in source order. -/
inductive Kind where
  | ebsVolumes
  | ebsSnapshots
  | elasticIps
  | loadBalancers
  | natGateways
  | rdsSnapshots
  | amiImages
  | ecrImages
  | cloudwatchLogs
  | s3Buckets
  | securityGroups
  | lambdaVersions
  deriving Repr, DecidableEq

/-- The enable flag guarding each kind handler (lines 62-107). -/
def kindEnabled (cfg : SweepConfig) : Kind → Bool
  | .ebsVolumes => cfg.clean_ebs_volumes
  | .ebsSnapshots => cfg.clean_ebs_snapshots
  | .elasticIps => cfg.clean_elastic_ips
  | .loadBalancers => cfg.clean_load_balancers
  | .natGateways => cfg.clean_nat_gateways
  | .rdsSnapshots => cfg.clean_rds_snapshots
  | .amiImages => cfg.clean_ami_images
  | .ecrImages => cfg.clean_ecr_images
  | .cloudwatchLogs => cfg.clean_cloudwatch_logs
  | .s3Buckets => cfg.clean_s3_buckets
  | .securityGroups => cfg.clean_security_groups
  | .lambdaVersions => cfg.clean_lambda_functions

/-- Dispatch of one kind handler on its slice of the provider state. -/
def kindResult (k : Kind) (cfg : SweepConfig) (st : ProviderState) : HandlerOut :=
  match k with
  | .ebsVolumes => cleanup_ebs_volumes cfg st.volumes
  | .ebsSnapshots => cleanup_ebs_snapshots cfg st.snapshots
  | .elasticIps => cleanup_elastic_ips cfg st.addresses
  | .loadBalancers => cleanup_load_balancers cfg st.loadBalancers
  | .natGateways => cleanup_nat_gateways cfg st.natGateways
  | .rdsSnapshots => cleanup_rds_snapshots cfg st.dbSnapshots st.dbClusterSnapshots
  | .amiImages => cleanup_ami_images cfg st.amiImages
  | .ecrImages => cleanup_ecr_images cfg st.ecrRepos
  | .cloudwatchLogs => cleanup_cloudwatch_logs cfg st.logGroups
  | .s3Buckets => cleanup_empty_s3_buckets cfg st.buckets
  | .securityGroups => cleanup_security_groups cfg st.securityGroups
  | .lambdaVersions => cleanup_old_lambda_versions cfg st.lambdaFunctions

/-- Source order of the handler calls inside `handler` (lines 60-107). -/
def kindOrder : List Kind :=
  [.ebsVolumes, .ebsSnapshots, .elasticIps, .loadBalancers, .natGateways,
   .rdsSnapshots, .amiImages, .ecrImages, .cloudwatchLogs, .s3Buckets,
   .securityGroups, .lambdaVersions]

/-- The empty `cleanup_summary` of lines 51-58. -/
def initSummary (ts : Int) (cfg : SweepConfig) : SweepSummary :=
  { timestamp := ts
    dry_run := cfg.dry_run
    resources_found := []
    resources_deleted := []
    estimated_monthly_savings := 0
    errors := [] }

/-- Merge one handler's net effect into the running summary: the handler
appends its error strings, assigns its two fresh counter keys and adds its
savings contribution. -/
def applyOut (s : SweepSummary) (o : HandlerOut) : SweepSummary :=
  { s with
    resources_found := s.resources_found ++ o.found
    resources_deleted := s.resources_deleted ++ o.deleted
    estimated_monthly_savings := s.estimated_monthly_savings + o.savings
    errors := s.errors ++ o.errs }

/-- Run the enabled handlers in order over the shared summary, also
collecting the trace of destructive calls. -/
def runHandlers (cfg : SweepConfig) (st : ProviderState) :
    List Kind → SweepSummary × List ApiCall → SweepSummary × List ApiCall
  | [], acc => acc
  | k :: ks, (s, cs) =>
      if kindEnabled cfg k then
        let o := kindResult k cfg st
        runHandlers cfg st ks (applyOut s o, cs ++ o.calls)
      else
        runHandlers cfg st ks (s, cs)

/-- The sweep portion of `handler` (lines 47-111): the summary after all
enabled handlers ran, plus the trace of destructive provider calls. -/
def sweep (ts : Int) (cfg : SweepConfig) (st : ProviderState) :
    SweepSummary × List ApiCall :=
  runHandlers cfg st kindOrder (initSummary ts cfg, [])

/-- The error string a handler records when its primary list/describe
call raises with message `e` (the `except` clause closing each handler). -/
def kindErrMsg (k : Kind) (e : String) : String :=
  match k with
  | .ebsVolumes => "EBS volume cleanup error: " ++ e
  | .ebsSnapshots => "EBS snapshot cleanup error: " ++ e
  | .elasticIps => "Elastic IP cleanup error: " ++ e
  | .loadBalancers => "Load balancer cleanup error: " ++ e
  | .natGateways => "NAT gateway cleanup error: " ++ e
  | .rdsSnapshots => "RDS snapshot cleanup error: " ++ e
  | .amiImages => "AMI cleanup error: " ++ e
  | .ecrImages => "ECR cleanup error: " ++ e
  | .cloudwatchLogs => "CloudWatch logs cleanup error: " ++ e
  | .s3Buckets => "S3 cleanup error: " ++ e
  | .securityGroups => "Security group cleanup error: " ++ e
  | .lambdaVersions => "Lambda cleanup error: " ++ e

/-- Inject a provider fault: kind `k`'s primary list/describe call raises
with message `e`; every other field of the state is untouched. -/
def setListingError (k : Kind) (e : String) (st : ProviderState) : ProviderState :=
  match k with
  | .ebsVolumes => { st with volumes := .error e }
  | .ebsSnapshots => { st with snapshots := .error e }
  | .elasticIps => { st with addresses := .error e }
  | .loadBalancers => { st with loadBalancers := .error e }
  | .natGateways => { st with natGateways := .error e }
  | .rdsSnapshots => { st with dbSnapshots := .error e }
  | .amiImages => { st with amiImages := .error e }
  | .ecrImages => { st with ecrRepos := .error e }
  | .cloudwatchLogs => { st with logGroups := .error e }
  | .s3Buckets => { st with buckets := .error e }
  | .securityGroups => { st with securityGroups := .error e }
  | .lambdaVersions => { st with lambdaFunctions := .error e }

/-- Counter lookup in a summary's per-kind association list (a kind never
swept reads as 0). -/
def lookupCount : List (String × Nat) → String → Nat
  | [], _ => 0
  | p :: ps, k => if p.1 == k then p.2 else lookupCount ps k

/-- The notification message of `send_notification` (lines 689-731),
reified by section: the "Resources Found" lines (non-zero kinds only),
the "Resources Deleted" section (present only on a real run), the savings
figure, the error lines (first ten) and the dry-run footnote. -/
structure NotificationMessage where
  header_timestamp : Int
  header_dry_run : Bool
  header_region : String
  found_lines : List (String × Nat)
  deleted_section : Option (List (String × Nat))
  savings : ℚ
  error_lines : List String
  dry_run_note : Bool
  deriving Repr, DecidableEq

/-- Format the summary into the message structure (lines 695-731). -/
def build_notification (region : String) (s : SweepSummary) : NotificationMessage :=
  { header_timestamp := s.timestamp
    header_dry_run := s.dry_run
    header_region := region
    found_lines := s.resources_found.filter (fun p => 0 < p.2)
    deleted_section :=
      if !s.dry_run then some (s.resources_deleted.filter (fun p => 0 < p.2)) else none
    savings := s.estimated_monthly_savings
    error_lines := s.errors.take 10
    dry_run_note := s.dry_run }

/-- `send_notification` (lines 689-740): skipped without a topic; the
message is built and published, and a raising `sns.publish` is only
printed — it alters nothing. -/
def send_notification (topic : Option String) (region : String)
    (s : SweepSummary) : Option NotificationMessage :=
  match topic with
  | none => none
  | some _ => some (build_notification region s)

/-- The full Lambda entry point `handler` (lines 47-119): runs the sweep,
sends the notification, and returns the summary.  `publishErr` models a
raising `sns.publish`; the bare print of line 740 gives it no influence on
either component. -/
def handler (ts : Int) (cfg : SweepConfig) (st : ProviderState)
    (publishErr : Option String) : SweepSummary × Option NotificationMessage :=
  let r := sweep ts cfg st
  (r.1, send_notification cfg.sns_topic_arn cfg.region r.1)

/-- Map inside a successful listing (a raised listing is unchanged). -/
def mapOk {A : Type} (f : A → A) : Except String A → Except String A
  | .error e => .error e
  | .ok a => .ok (f a)

/-- Provider-side effect of one destructive call: the targeted record
disappears from the corresponding listing when the call succeeded (its
modelled error slot is `none`); a failed call changes nothing. -/
def applyCall (st : ProviderState) : ApiCall → ProviderState
  | .deleteVolume id =>
      let p := fun (v : Volume) => !(v.volumeId == id && v.deleteErr.isNone)
      { st with volumes := mapOk (fun l => l.filter p) st.volumes }
  | .deleteSnapshot id =>
      let p := fun (s : Snapshot) => !(s.snapshotId == id && s.deleteErr.isNone)
      { st with snapshots := mapOk (fun l => l.filter p) st.snapshots }
  | .releaseAddress id =>
      let p := fun (a : Address) => !(pyor a.allocationId a.publicIp == id && a.releaseErr.isNone)
      { st with addresses := mapOk (fun l => l.filter p) st.addresses }
  | .deleteLoadBalancer arn =>
      let p := fun (b : LoadBalancer) => !(b.loadBalancerArn == arn && b.deleteErr.isNone)
      { st with loadBalancers := mapOk (fun l => l.filter p) st.loadBalancers }
  | .deleteNatGateway id =>
      let p := fun (n : NatGateway) => !(n.natGatewayId == id && n.deleteErr.isNone)
      { st with natGateways := mapOk (fun l => l.filter p) st.natGateways }
  | .deleteDbSnapshot id =>
      let p := fun (s : DBSnapshot) => !(s.dbSnapshotIdentifier == id && s.deleteErr.isNone)
      { st with dbSnapshots := mapOk (fun l => l.filter p) st.dbSnapshots }
  | .deleteDbClusterSnapshot id =>
      let p := fun (s : DBClusterSnapshot) => !(s.dbClusterSnapshotIdentifier == id && s.deleteErr.isNone)
      { st with dbClusterSnapshots := mapOk (fun l => l.filter p) st.dbClusterSnapshots }
  | .deregisterImage id =>
      let p := fun (i : AmiImage) => !(i.imageId == id && i.deregisterErr.isNone)
      { st with amiImages := mapOk (fun l => l.filter p) st.amiImages }
  | .batchDeleteImage repo digs =>
      let f := fun (r : EcrRepo) =>
        if r.repositoryName == repo && r.batchDeleteErr.isNone then
          { r with listImages := mapOk (fun il => il.filter (fun i => !(digs.contains i.imageDigest))) r.listImages }
        else r
      { st with ecrRepos := mapOk (fun l => l.map f) st.ecrRepos }
  | .deleteLogGroup n =>
      let p := fun (g : LogGroup) => !(g.logGroupName == n && g.deleteErr.isNone)
      { st with logGroups := mapOk (fun l => l.filter p) st.logGroups }
  | .deleteBucket n =>
      let p := fun (b : Bucket) => !(b.name == n && b.deleteErr.isNone)
      { st with buckets := mapOk (fun l => l.filter p) st.buckets }
  | .deleteSecurityGroup id =>
      let p := fun (g : SecurityGroup) => !(g.groupId == id && g.deleteErr.isNone)
      { st with securityGroups := mapOk (fun d => { d with groups := d.groups.filter p }) st.securityGroups }
  | .deleteFunction fn ver =>
      let f := fun (fnc : LambdaFunction) =>
        if fnc.functionName == fn then
          { fnc with versions := mapOk (fun vl => vl.filter (fun v => !(v.version == ver && v.deleteErr.isNone))) fnc.versions }
        else fnc
      { st with lambdaFunctions := mapOk (fun l => l.map f) st.lambdaFunctions }

/-- Provider-side effect of a trace of destructive calls, in order. -/
def applyCalls (st : ProviderState) (cs : List ApiCall) : ProviderState :=
  cs.foldl applyCall st

/-- The handler outputs of the enabled kinds among `ks`, in order. -/
def sweepOuts (cfg : SweepConfig) (st : ProviderState) (ks : List Kind) :
    List HandlerOut :=
  (ks.filter (fun k => kindEnabled cfg k)).map (fun k => kindResult k cfg st)

/-- How each handler derives its deleted counter from its found counter
(`len(...) if not DRY_RUN else 0`). -/
def deletedOfFound (dry : Bool) (p : String × Nat) : String × Nat :=
  (p.1, if dry then 0 else p.2)

/-- The all-defaults configuration: every environment variable unset, so
dry-run on, 30-day threshold, every kind enabled, both whitelist lists the
comma-split of the empty string; the clock reads 100 days past the epoch. -/
def cfgDefault : SweepConfig :=
  { dry_run := true
    age_threshold_days := 30
    now := 8640000
    whitelist_tags := pySplit ',' ""
    whitelist_prefixes := pySplit ',' ""
    clean_ebs_volumes := true
    clean_ebs_snapshots := true
    clean_elastic_ips := true
    clean_load_balancers := true
    clean_nat_gateways := true
    clean_rds_snapshots := true
    clean_ami_images := true
    clean_ecr_images := true
    clean_cloudwatch_logs := true
    clean_s3_buckets := true
    clean_security_groups := true
    clean_lambda_functions := true
    sns_topic_arn := some "arn:aws:sns:cleanup-topic"
    region := "ap-northeast-2" }

/-- The default configuration with `DRY_RUN=false`. -/
def cfgReal : SweepConfig := { cfgDefault with dry_run := false }

/-- The default configuration with the clock at 40 days past the epoch. -/
def cfgLb : SweepConfig := { cfgDefault with now := 3456000 }

/-- A configuration with one non-empty whitelist prefix and tag key. -/
def cfgPrefixed : SweepConfig :=
  { cfgDefault with whitelist_prefixes := ["team-"], whitelist_tags := ["Name"] }

/-- A provider state where every listing succeeds and is empty. -/
def stEmpty : ProviderState :=
  { volumes := .ok []
    snapshots := .ok []
    addresses := .ok []
    loadBalancers := .ok []
    natGateways := .ok []
    dbSnapshots := .ok []
    dbClusterSnapshots := .ok []
    amiImages := .ok []
    ecrRepos := .ok []
    logGroups := .ok []
    buckets := .ok []
    securityGroups := .ok ⟨[], []⟩
    lambdaFunctions := .ok [] }

/-- A detached volume created at the epoch whose deletion succeeds. -/
def vEx : Volume := ⟨"vol-1", "available", [], some 0, 8, none⟩

/-- A detached volume created at the epoch whose deletion raises. -/
def vFail : Volume := ⟨"vol-2", "available", [], some 0, 8, some "VolumeInUse"⟩

/-- An old manual snapshot whose deletion raises. -/
def snapFail : Snapshot := ⟨"snap-1", "manual backup", [], some 0, some 4, some "InUse"⟩

/-- A provider state holding only the failing volume and snapshot. -/
def stFail : ProviderState :=
  { stEmpty with volumes := .ok [vFail], snapshots := .ok [snapFail] }

/-- Fifteen untagged ECR image entries. -/
def imgs15untagged : List EcrImage := List.replicate 15 ⟨none, "sha256-e3b0"⟩

/-- A repository listing exactly the fifteen untagged images. -/
def repoUntagged : EcrRepo := ⟨"repo-a", .ok imgs15untagged, none⟩

/-- Fifteen ECR images bearing distinct unprotected tags, in listing
order. -/
def imgs15tagged : List EcrImage :=
  [⟨some "v01", "d01"⟩, ⟨some "v02", "d02"⟩, ⟨some "v03", "d03"⟩,
   ⟨some "v04", "d04"⟩, ⟨some "v05", "d05"⟩, ⟨some "v06", "d06"⟩,
   ⟨some "v07", "d07"⟩, ⟨some "v08", "d08"⟩, ⟨some "v09", "d09"⟩,
   ⟨some "v10", "d10"⟩, ⟨some "v11", "d11"⟩, ⟨some "v12", "d12"⟩,
   ⟨some "v13", "d13"⟩, ⟨some "v14", "d14"⟩, ⟨some "v15", "d15"⟩]

/-- A target group with no registered target. -/
def tgEmpty : TargetGroup := ⟨"tg-0", .ok []⟩

/-- A target group whose single registered target reports unhealthy. -/
def tgUnhealthy : TargetGroup := ⟨"tg-1", .ok ["unhealthy"]⟩

/-- A 40-day-old load balancer with one empty target group. -/
def lbNoTargets : LoadBalancer := ⟨"arn-lb-0", "lb-zero", some 0, .ok [tgEmpty], none⟩

/-- A 40-day-old load balancer whose single target is unhealthy. -/
def lbUnhealthy : LoadBalancer := ⟨"arn-lb-1", "lb-one", some 0, .ok [tgUnhealthy], none⟩

theorem ebsVolumesLoop_calls_dry (cfg : SweepConfig) (h : cfg.dry_run = true) :
    ∀ vs, (ebsVolumesLoop cfg vs).calls = [] := by
  intro vs
  induction vs with
  | nil => rfl
  | cons v vs ih =>
      simp only [ebsVolumesLoop]
      split
      · exact ih
      · split
        · exact ih
        · simp [h, ih]

theorem ebsSnapshotsLoop_calls_dry (cfg : SweepConfig) (h : cfg.dry_run = true) :
    ∀ ss, (ebsSnapshotsLoop cfg ss).calls = [] := by
  intro ss
  induction ss with
  | nil => rfl
  | cons s ss ih =>
      simp only [ebsSnapshotsLoop]
      split
      · exact ih
      · split
        · exact ih
        · split
          · exact ih
          · simp [h, ih]

theorem elasticIpsLoop_calls_dry (cfg : SweepConfig) (h : cfg.dry_run = true) :
    ∀ l, (elasticIpsLoop cfg l).calls = [] := by
  intro l
  induction l with
  | nil => rfl
  | cons a l ih =>
      simp only [elasticIpsLoop]
      split
      · exact ih
      · split
        · exact ih
        · simp [h, ih]

theorem loadBalancersLoop_calls_dry (cfg : SweepConfig) (h : cfg.dry_run = true) :
    ∀ l, (loadBalancersLoop cfg l).calls = [] := by
  intro l
  induction l with
  | nil => rfl
  | cons lb l ih =>
      simp only [loadBalancersLoop]
      split
      · exact ih
      · split
        · exact ih
        · split
          · exact ih
          · exact ih
          · split
            · exact ih
            · simp [h, ih]

theorem natGatewaysLoop_calls_dry (cfg : SweepConfig) (h : cfg.dry_run = true) :
    ∀ l, (natGatewaysLoop cfg l).calls = [] := by
  intro l
  induction l with
  | nil => rfl
  | cons n l ih =>
      simp only [natGatewaysLoop]
      split
      · exact ih
      · split
        · exact ih
        · simp [h, ih]

theorem rdsDbLoop_calls_dry (cfg : SweepConfig) (h : cfg.dry_run = true) :
    ∀ l, (rdsDbLoop cfg l).calls = [] := by
  intro l
  induction l with
  | nil => rfl
  | cons s l ih =>
      simp only [rdsDbLoop]
      split
      · exact ih
      · split
        · exact ih
        · simp [h, ih]

theorem rdsClusterLoop_calls_dry (cfg : SweepConfig) (h : cfg.dry_run = true) :
    ∀ l, (rdsClusterLoop cfg l).calls = [] := by
  intro l
  induction l with
  | nil => rfl
  | cons s l ih =>
      simp only [rdsClusterLoop]
      split
      · exact ih
      · split
        · exact ih
        · simp [h, ih]

theorem amiImagesLoop_calls_dry (cfg : SweepConfig) (h : cfg.dry_run = true) :
    ∀ l, (amiImagesLoop cfg l).calls = [] := by
  intro l
  induction l with
  | nil => rfl
  | cons im l ih =>
      simp only [amiImagesLoop]
      split
      · exact ih
      · split
        · exact ih
        · simp [h, ih]

theorem ecrReposLoop_calls_dry (cfg : SweepConfig) (h : cfg.dry_run = true) :
    ∀ l, (ecrReposLoop cfg l).calls = [] := by
  intro l
  induction l with
  | nil => rfl
  | cons r l ih =>
      simp only [ecrReposLoop]
      split
      · exact ih
      · split
        · simp [ih]
        · split
          · exact ih
          · simp [h, ih]

theorem logGroupsLoop_calls_dry (cfg : SweepConfig) (h : cfg.dry_run = true) :
    ∀ l, (logGroupsLoop cfg l).calls = [] := by
  intro l
  induction l with
  | nil => rfl
  | cons g l ih =>
      simp only [logGroupsLoop]
      split
      · exact ih
      · split
        · exact ih
        · split
          · exact ih
          · simp [h, ih]

theorem bucketsLoop_calls_dry (cfg : SweepConfig) (h : cfg.dry_run = true) :
    ∀ l, (bucketsLoop cfg l).calls = [] := by
  intro l
  induction l with
  | nil => rfl
  | cons b l ih =>
      simp only [bucketsLoop]
      split
      · exact ih
      · split
        · exact ih
        · split
          · exact ih
          · split
            · exact ih
            · simp [h, ih]

theorem securityGroupsLoop_calls_dry (cfg : SweepConfig) (used : List String)
    (h : cfg.dry_run = true) : ∀ l, (securityGroupsLoop cfg used l).calls = [] := by
  intro l
  induction l with
  | nil => rfl
  | cons g l ih =>
      simp only [securityGroupsLoop]
      split
      · exact ih
      · split
        · exact ih
        · split
          · exact ih
          · simp [h, ih]

theorem lambdaVersionsLoop_calls_dry (cfg : SweepConfig) (fn : String)
    (h : cfg.dry_run = true) : ∀ l, (lambdaVersionsLoop cfg fn l).calls = [] := by
  intro l
  induction l with
  | nil => rfl
  | cons v l ih => simp [lambdaVersionsLoop, h, ih]

theorem lambdaFunctionsLoop_calls_dry (cfg : SweepConfig) (h : cfg.dry_run = true) :
    ∀ l, (lambdaFunctionsLoop cfg l).calls = [] := by
  intro l
  induction l with
  | nil => rfl
  | cons f l ih =>
      simp only [lambdaFunctionsLoop]
      split
      · exact ih
      · split
        · exact ih
        · simp [lambdaVersionsLoop_calls_dry cfg _ h, ih]

theorem kindResult_calls_dry (k : Kind) (cfg : SweepConfig) (st : ProviderState)
    (h : cfg.dry_run = true) : (kindResult k cfg st).calls = [] := by
  cases k with
  | ebsVolumes =>
      cases hx : st.volumes with
      | error e => simp [kindResult, cleanup_ebs_volumes, hx]
      | ok vs => simp [kindResult, cleanup_ebs_volumes, hx, ebsVolumesLoop_calls_dry cfg h]
  | ebsSnapshots =>
      cases hx : st.snapshots with
      | error e => simp [kindResult, cleanup_ebs_snapshots, hx]
      | ok vs => simp [kindResult, cleanup_ebs_snapshots, hx, ebsSnapshotsLoop_calls_dry cfg h]
  | elasticIps =>
      cases hx : st.addresses with
      | error e => simp [kindResult, cleanup_elastic_ips, hx]
      | ok vs => simp [kindResult, cleanup_elastic_ips, hx, elasticIpsLoop_calls_dry cfg h]
  | loadBalancers =>
      cases hx : st.loadBalancers with
      | error e => simp [kindResult, cleanup_load_balancers, hx]
      | ok vs =>
          simp [kindResult, cleanup_load_balancers, hx, loadBalancersLoop_calls_dry cfg h]
  | natGateways =>
      cases hx : st.natGateways with
      | error e => simp [kindResult, cleanup_nat_gateways, hx]
      | ok vs => simp [kindResult, cleanup_nat_gateways, hx, natGatewaysLoop_calls_dry cfg h]
  | rdsSnapshots =>
      cases hx : st.dbSnapshots with
      | error e => simp [kindResult, cleanup_rds_snapshots, hx]
      | ok vs =>
          cases hy : st.dbClusterSnapshots with
          | error e =>
              simp [kindResult, cleanup_rds_snapshots, hx, hy, rdsDbLoop_calls_dry cfg h]
          | ok cs =>
              simp [kindResult, cleanup_rds_snapshots, hx, hy, rdsDbLoop_calls_dry cfg h,
                rdsClusterLoop_calls_dry cfg h]
  | amiImages =>
      cases hx : st.amiImages with
      | error e => simp [kindResult, cleanup_ami_images, hx]
      | ok vs => simp [kindResult, cleanup_ami_images, hx, amiImagesLoop_calls_dry cfg h]
  | ecrImages =>
      cases hx : st.ecrRepos with
      | error e => simp [kindResult, cleanup_ecr_images, hx]
      | ok vs => simp [kindResult, cleanup_ecr_images, hx, ecrReposLoop_calls_dry cfg h]
  | cloudwatchLogs =>
      cases hx : st.logGroups with
      | error e => simp [kindResult, cleanup_cloudwatch_logs, hx]
      | ok vs => simp [kindResult, cleanup_cloudwatch_logs, hx, logGroupsLoop_calls_dry cfg h]
  | s3Buckets =>
      cases hx : st.buckets with
      | error e => simp [kindResult, cleanup_empty_s3_buckets, hx]
      | ok vs => simp [kindResult, cleanup_empty_s3_buckets, hx, bucketsLoop_calls_dry cfg h]
  | securityGroups =>
      cases hx : st.securityGroups with
      | error e => simp [kindResult, cleanup_security_groups, hx]
      | ok d =>
          simp [kindResult, cleanup_security_groups, hx,
            securityGroupsLoop_calls_dry cfg d.usedGroupIds h]
  | lambdaVersions =>
      cases hx : st.lambdaFunctions with
      | error e => simp [kindResult, cleanup_old_lambda_versions, hx]
      | ok fs =>
          simp [kindResult, cleanup_old_lambda_versions, hx,
            lambdaFunctionsLoop_calls_dry cfg h]

theorem kindResult_mirror (k : Kind) (cfg : SweepConfig) (st : ProviderState) :
    (kindResult k cfg st).deleted =
      (kindResult k cfg st).found.map (deletedOfFound cfg.dry_run) := by
  cases k with
  | ebsVolumes =>
      cases hx : st.volumes with
      | error e => simp [kindResult, cleanup_ebs_volumes, hx]
      | ok vs =>
          cases h : cfg.dry_run <;>
            simp [kindResult, cleanup_ebs_volumes, hx, deletedOfFound, h]
  | ebsSnapshots =>
      cases hx : st.snapshots with
      | error e => simp [kindResult, cleanup_ebs_snapshots, hx]
      | ok vs =>
          cases h : cfg.dry_run <;>
            simp [kindResult, cleanup_ebs_snapshots, hx, deletedOfFound, h]
  | elasticIps =>
      cases hx : st.addresses with
      | error e => simp [kindResult, cleanup_elastic_ips, hx]
      | ok vs =>
          cases h : cfg.dry_run <;>
            simp [kindResult, cleanup_elastic_ips, hx, deletedOfFound, h]
  | loadBalancers =>
      cases hx : st.loadBalancers with
      | error e => simp [kindResult, cleanup_load_balancers, hx]
      | ok vs =>
          cases h : cfg.dry_run <;>
            simp [kindResult, cleanup_load_balancers, hx, deletedOfFound, h]
  | natGateways =>
      cases hx : st.natGateways with
      | error e => simp [kindResult, cleanup_nat_gateways, hx]
      | ok vs =>
          cases h : cfg.dry_run <;>
            simp [kindResult, cleanup_nat_gateways, hx, deletedOfFound, h]
  | rdsSnapshots =>
      cases hx : st.dbSnapshots with
      | error e => simp [kindResult, cleanup_rds_snapshots, hx]
      | ok vs =>
          cases hy : st.dbClusterSnapshots with
          | error e => simp [kindResult, cleanup_rds_snapshots, hx, hy]
          | ok cs =>
              cases h : cfg.dry_run <;>
                simp [kindResult, cleanup_rds_snapshots, hx, hy, deletedOfFound, h]
  | amiImages =>
      cases hx : st.amiImages with
      | error e => simp [kindResult, cleanup_ami_images, hx]
      | ok vs =>
          cases h : cfg.dry_run <;>
            simp [kindResult, cleanup_ami_images, hx, deletedOfFound, h]
  | ecrImages =>
      cases hx : st.ecrRepos with
      | error e => simp [kindResult, cleanup_ecr_images, hx]
      | ok vs =>
          cases h : cfg.dry_run <;>
            simp [kindResult, cleanup_ecr_images, hx, deletedOfFound, h]
  | cloudwatchLogs =>
      cases hx : st.logGroups with
      | error e => simp [kindResult, cleanup_cloudwatch_logs, hx]
      | ok vs =>
          cases h : cfg.dry_run <;>
            simp [kindResult, cleanup_cloudwatch_logs, hx, deletedOfFound, h]
  | s3Buckets =>
      cases hx : st.buckets with
      | error e => simp [kindResult, cleanup_empty_s3_buckets, hx]
      | ok vs =>
          cases h : cfg.dry_run <;>
            simp [kindResult, cleanup_empty_s3_buckets, hx, deletedOfFound, h]
  | securityGroups =>
      cases hx : st.securityGroups with
      | error e => simp [kindResult, cleanup_security_groups, hx]
      | ok d =>
          cases h : cfg.dry_run <;>
            simp [kindResult, cleanup_security_groups, hx, deletedOfFound, h]
  | lambdaVersions =>
      cases hx : st.lambdaFunctions with
      | error e => simp [kindResult, cleanup_old_lambda_versions, hx]
      | ok fs =>
          cases h : cfg.dry_run <;>
            simp [kindResult, cleanup_old_lambda_versions, hx, deletedOfFound, h]

theorem runHandlers_eq (cfg : SweepConfig) (st : ProviderState) :
    ∀ (ks : List Kind) (s : SweepSummary) (cs : List ApiCall),
      runHandlers cfg st ks (s, cs) =
        ({ s with
            resources_found :=
              s.resources_found ++ (sweepOuts cfg st ks).flatMap HandlerOut.found
            resources_deleted :=
              s.resources_deleted ++ (sweepOuts cfg st ks).flatMap HandlerOut.deleted
            estimated_monthly_savings :=
              s.estimated_monthly_savings + ((sweepOuts cfg st ks).map HandlerOut.savings).sum
            errors := s.errors ++ (sweepOuts cfg st ks).flatMap HandlerOut.errs },
         cs ++ (sweepOuts cfg st ks).flatMap HandlerOut.calls) := by
  intro ks
  induction ks with
  | nil => intro s cs; simp [runHandlers, sweepOuts]
  | cons k ks ih =>
      intro s cs
      cases h : kindEnabled cfg k with
      | true =>
          simp only [runHandlers, h, if_true]
          rw [ih]
          simp [sweepOuts, applyOut, h, List.append_assoc, add_assoc]
      | false =>
          simp only [runHandlers, h, Bool.false_eq_true, if_false]
          rw [ih]
          simp [sweepOuts, h]

theorem sweep_timestamp (ts : Int) (cfg : SweepConfig) (st : ProviderState) :
    (sweep ts cfg st).1.timestamp = ts := by
  simp [sweep, runHandlers_eq, initSummary]

theorem sweep_dry_run_field (ts : Int) (cfg : SweepConfig) (st : ProviderState) :
    (sweep ts cfg st).1.dry_run = cfg.dry_run := by
  simp [sweep, runHandlers_eq, initSummary]

theorem sweep_found (ts : Int) (cfg : SweepConfig) (st : ProviderState) :
    (sweep ts cfg st).1.resources_found =
      (sweepOuts cfg st kindOrder).flatMap HandlerOut.found := by
  simp [sweep, runHandlers_eq, initSummary]

theorem sweep_deleted (ts : Int) (cfg : SweepConfig) (st : ProviderState) :
    (sweep ts cfg st).1.resources_deleted =
      (sweepOuts cfg st kindOrder).flatMap HandlerOut.deleted := by
  simp [sweep, runHandlers_eq, initSummary]

theorem sweep_errors (ts : Int) (cfg : SweepConfig) (st : ProviderState) :
    (sweep ts cfg st).1.errors =
      (sweepOuts cfg st kindOrder).flatMap HandlerOut.errs := by
  simp [sweep, runHandlers_eq, initSummary]

theorem sweep_savings (ts : Int) (cfg : SweepConfig) (st : ProviderState) :
    (sweep ts cfg st).1.estimated_monthly_savings =
      ((sweepOuts cfg st kindOrder).map HandlerOut.savings).sum := by
  simp [sweep, runHandlers_eq, initSummary]

theorem sweep_calls (ts : Int) (cfg : SweepConfig) (st : ProviderState) :
    (sweep ts cfg st).2 = (sweepOuts cfg st kindOrder).flatMap HandlerOut.calls := by
  simp [sweep, runHandlers_eq, initSummary]

theorem sweep_swap_ts (ts1 ts2 : Int) (cfg : SweepConfig) (st : ProviderState) :
    (sweep ts2 cfg st).1 = { (sweep ts1 cfg st).1 with timestamp := ts2 } := by
  simp [sweep, runHandlers_eq, initSummary]

theorem flatMap_eq_nil {A B : Type} (f : A → List B) :
    ∀ l : List A, (∀ o ∈ l, f o = []) → l.flatMap f = [] := by
  intro l
  induction l with
  | nil => intro _; rfl
  | cons a l ih =>
      intro h
      simp only [List.flatMap_cons]
      rw [h a (List.mem_cons_self a l), ih (fun o ho => h o (List.mem_cons_of_mem a ho))]
      rfl

theorem flatMap_map_snd {A : Type} (g : A → List (String × Nat)) (f : (String × Nat) → (String × Nat)) :
    ∀ l : List A, (l.flatMap (fun o => (g o).map f)) = (l.flatMap g).map f := by
  intro l
  induction l with
  | nil => rfl
  | cons a l ih => simp only [List.flatMap_cons, List.map_append, ih]

theorem lookupCount_map_zero (k : String) :
    ∀ l : List (String × Nat), lookupCount (l.map (fun p => (p.1, 0))) k = 0 := by
  intro l
  induction l with
  | nil => rfl
  | cons p l ih =>
      simp only [List.map_cons, lookupCount]
      split
      · rfl
      · exact ih

theorem map_fst_snd_id : ∀ l : List (String × Nat), l.map (fun p => (p.1, p.2)) = l := by
  intro l
  induction l with
  | nil => rfl
  | cons p l ih => simp [ih]

theorem ebsVolumesLoop_mem (cfg : SweepConfig) :
    ∀ (vs : List Volume) (v : Volume), v ∈ vs →
      is_whitelisted cfg v.volumeId v.tags = false →
      is_old_enough cfg v.createTime = true →
      v.volumeId ∈ (ebsVolumesLoop cfg vs).toDelete := by
  intro vs
  induction vs with
  | nil => intro v hv; exact absurd hv (List.not_mem_nil v)
  | cons u vs ih =>
      intro v hv hwl hold
      rcases List.mem_cons.mp hv with rfl | hv'
      · simp [ebsVolumesLoop, hwl, hold]
      · have hmem := ih v hv' hwl hold
        simp only [ebsVolumesLoop]
        split
        · exact hmem
        · split
          · exact hmem
          · exact List.mem_cons_of_mem _ hmem

theorem ebsVolumesLoop_errs_mem (cfg : SweepConfig) (hdry : cfg.dry_run = false) :
    ∀ (vs : List Volume) (v : Volume) (e : String), v ∈ vs →
      is_whitelisted cfg v.volumeId v.tags = false →
      is_old_enough cfg v.createTime = true →
      v.deleteErr = some e →
      ("Failed to delete volume " ++ v.volumeId ++ ": " ++ e) ∈
        (ebsVolumesLoop cfg vs).errs := by
  intro vs
  induction vs with
  | nil => intro v e hv; exact absurd hv (List.not_mem_nil v)
  | cons u vs ih =>
      intro v e hv hwl hold herr
      rcases List.mem_cons.mp hv with rfl | hv'
      · simp [ebsVolumesLoop, hwl, hold, hdry, herr]
      · have hmem := ih v e hv' hwl hold herr
        simp only [ebsVolumesLoop]
        split
        · exact hmem
        · split
          · exact hmem
          · exact List.mem_append_right _ hmem

theorem ebsVolumesLoop_sound (cfg : SweepConfig) :
    ∀ (vs : List Volume) (id : String), id ∈ (ebsVolumesLoop cfg vs).toDelete →
      ∃ v, v ∈ vs ∧ v.volumeId = id ∧
        is_whitelisted cfg v.volumeId v.tags = false ∧
        is_old_enough cfg v.createTime = true := by
  intro vs
  induction vs with
  | nil => intro id hid; exact absurd hid (List.not_mem_nil id)
  | cons u vs ih =>
      intro id hid
      simp only [ebsVolumesLoop] at hid
      by_cases hwl : is_whitelisted cfg u.volumeId u.tags = true
      · rw [if_pos hwl] at hid
        obtain ⟨v, hv, hrest⟩ := ih id hid
        exact ⟨v, List.mem_cons_of_mem _ hv, hrest⟩
      · rw [if_neg hwl] at hid
        by_cases hold : (!is_old_enough cfg u.createTime) = true
        · rw [if_pos hold] at hid
          obtain ⟨v, hv, hrest⟩ := ih id hid
          exact ⟨v, List.mem_cons_of_mem _ hv, hrest⟩
        · rw [if_neg hold] at hid
          rcases List.mem_cons.mp hid with rfl | hid'
          · refine ⟨u, List.mem_cons_self u vs, rfl, ?_, ?_⟩
            · exact Bool.eq_false_iff.mpr hwl
            · simpa using hold
          · obtain ⟨v, hv, hrest⟩ := ih id hid'
            exact ⟨v, List.mem_cons_of_mem _ hv, hrest⟩

theorem ebsSnapshotsLoop_mem (cfg : SweepConfig) :
    ∀ (ss : List Snapshot) (s : Snapshot), s ∈ ss →
      startswith s.description "Created by CreateImage" = false →
      is_whitelisted cfg s.snapshotId s.tags = false →
      is_old_enough cfg s.startTime = true →
      s.snapshotId ∈ (ebsSnapshotsLoop cfg ss).toDelete := by
  intro ss
  induction ss with
  | nil => intro s hs; exact absurd hs (List.not_mem_nil s)
  | cons u ss ih =>
      intro s hs hami hwl hold
      rcases List.mem_cons.mp hs with rfl | hs'
      · simp [ebsSnapshotsLoop, hami, hwl, hold]
      · have hmem := ih s hs' hami hwl hold
        simp only [ebsSnapshotsLoop]
        split
        · exact hmem
        · split
          · exact hmem
          · split
            · exact hmem
            · exact List.mem_cons_of_mem _ hmem

theorem ebsSnapshotsLoop_errs_mem (cfg : SweepConfig) (hdry : cfg.dry_run = false) :
    ∀ (ss : List Snapshot) (s : Snapshot) (e : String), s ∈ ss →
      startswith s.description "Created by CreateImage" = false →
      is_whitelisted cfg s.snapshotId s.tags = false →
      is_old_enough cfg s.startTime = true →
      s.deleteErr = some e →
      ("Failed to delete snapshot " ++ s.snapshotId ++ ": " ++ e) ∈
        (ebsSnapshotsLoop cfg ss).errs := by
  intro ss
  induction ss with
  | nil => intro s e hs; exact absurd hs (List.not_mem_nil s)
  | cons u ss ih =>
      intro s e hs hami hwl hold herr
      rcases List.mem_cons.mp hs with rfl | hs'
      · simp [ebsSnapshotsLoop, hami, hwl, hold, hdry, herr]
      · have hmem := ih s e hs' hami hwl hold herr
        simp only [ebsSnapshotsLoop]
        split
        · exact hmem
        · split
          · exact hmem
          · split
            · exact hmem
            · exact List.mem_append_right _ hmem

theorem checkTargets_eq_false_iff :
    ∀ tgs : List TargetGroup,
      checkTargets tgs = some false ↔
        ∀ tg ∈ tgs, tg.healthQuery = .ok ([] : List String) := by
  intro tgs
  induction tgs with
  | nil => simp [checkTargets]
  | cons tg tgs ih =>
      cases hq : tg.healthQuery with
      | error e => simp [checkTargets, hq]
      | ok hs =>
          cases hs with
          | nil => simp [checkTargets, hq, ih]
          | cons a hs' => simp [checkTargets, hq]

theorem loadBalancersLoop_mem (cfg : SweepConfig) :
    ∀ (lbs : List LoadBalancer) (lb : LoadBalancer) (tgs : List TargetGroup), lb ∈ lbs →
      is_whitelisted cfg lb.loadBalancerName [] = false →
      lb.targetGroups = .ok tgs →
      checkTargets tgs = some false →
      is_old_enough cfg lb.createdTime = true →
      lb.loadBalancerArn ∈ (loadBalancersLoop cfg lbs).toDelete := by
  intro lbs
  induction lbs with
  | nil => intro lb tgs hlb; exact absurd hlb (List.not_mem_nil lb)
  | cons u lbs ih =>
      intro lb tgs hlb hwl htg hct hold
      rcases List.mem_cons.mp hlb with rfl | hlb'
      · simp [loadBalancersLoop, hwl, htg, hct, hold]
      · have hmem := ih lb tgs hlb' hwl htg hct hold
        simp only [loadBalancersLoop]
        split
        · exact hmem
        · split
          · exact hmem
          · split
            · exact hmem
            · exact hmem
            · split
              · exact hmem
              · exact List.mem_cons_of_mem _ hmem

theorem loadBalancersLoop_sound (cfg : SweepConfig) :
    ∀ (lbs : List LoadBalancer) (a : String), a ∈ (loadBalancersLoop cfg lbs).toDelete →
      ∃ lb tgs, lb ∈ lbs ∧ lb.loadBalancerArn = a ∧
        is_whitelisted cfg lb.loadBalancerName [] = false ∧
        lb.targetGroups = .ok tgs ∧ checkTargets tgs = some false ∧
        is_old_enough cfg lb.createdTime = true := by
  intro lbs
  induction lbs with
  | nil => intro a ha; exact absurd ha (List.not_mem_nil a)
  | cons u lbs ih =>
      intro a ha
      simp only [loadBalancersLoop] at ha
      by_cases hwl : is_whitelisted cfg u.loadBalancerName [] = true
      · rw [if_pos hwl] at ha
        obtain ⟨lb, tgs, hlb, hrest⟩ := ih a ha
        exact ⟨lb, tgs, List.mem_cons_of_mem _ hlb, hrest⟩
      · rw [if_neg hwl] at ha
        cases htg : u.targetGroups with
        | error e =>
            simp only [htg] at ha
            obtain ⟨lb, tgs, hlb, hrest⟩ := ih a ha
            exact ⟨lb, tgs, List.mem_cons_of_mem _ hlb, hrest⟩
        | ok tgs0 =>
            simp only [htg] at ha
            cases hct : checkTargets tgs0 with
            | none =>
                simp only [hct] at ha
                obtain ⟨lb, tgs, hlb, hrest⟩ := ih a ha
                exact ⟨lb, tgs, List.mem_cons_of_mem _ hlb, hrest⟩
            | some b =>
                cases b with
                | true =>
                    simp only [hct] at ha
                    obtain ⟨lb, tgs, hlb, hrest⟩ := ih a ha
                    exact ⟨lb, tgs, List.mem_cons_of_mem _ hlb, hrest⟩
                | false =>
                    simp only [hct] at ha
                    by_cases hold : (!is_old_enough cfg u.createdTime) = true
                    · rw [if_pos hold] at ha
                      obtain ⟨lb, tgs, hlb, hrest⟩ := ih a ha
                      exact ⟨lb, tgs, List.mem_cons_of_mem _ hlb, hrest⟩
                    · rw [if_neg hold] at ha
                      rcases List.mem_cons.mp ha with rfl | ha'
                      · refine ⟨u, tgs0, List.mem_cons_self u lbs, rfl,
                          Bool.eq_false_iff.mpr hwl, htg, hct, ?_⟩
                        simpa using hold
                      · obtain ⟨lb, tgs, hlb, hrest⟩ := ih a ha'
                        exact ⟨lb, tgs, List.mem_cons_of_mem _ hlb, hrest⟩

theorem flatMap_congr {A B : Type} (f g : A → List B) :
    ∀ l : List A, (∀ a ∈ l, f a = g a) → l.flatMap f = l.flatMap g := by
  intro l
  induction l with
  | nil => intro _; rfl
  | cons a l ih =>
      intro h
      simp only [List.flatMap_cons]
      rw [h a (List.mem_cons_self a l), ih (fun x hx => h x (List.mem_cons_of_mem a hx))]

theorem map_flatMap {A B C : Type} (g : A → B) (f : B → List C) :
    ∀ l : List A, (l.map g).flatMap f = l.flatMap (fun a => f (g a)) := by
  intro l
  induction l with
  | nil => rfl
  | cons a l ih => simp only [List.map_cons, List.flatMap_cons, ih]

theorem sweep_calls_dry (ts : Int) (cfg : SweepConfig) (st : ProviderState)
    (h : cfg.dry_run = true) : (sweep ts cfg st).2 = [] := by
  rw [sweep_calls]
  apply flatMap_eq_nil
  intro o ho
  simp only [sweepOuts, List.mem_map] at ho
  obtain ⟨k, _, rfl⟩ := ho
  exact kindResult_calls_dry k cfg st h

theorem sweep_deleted_eq_map (ts : Int) (cfg : SweepConfig) (st : ProviderState) :
    (sweep ts cfg st).1.resources_deleted =
      (sweep ts cfg st).1.resources_found.map (deletedOfFound cfg.dry_run) := by
  rw [sweep_deleted, sweep_found]
  rw [flatMap_congr HandlerOut.deleted
        (fun o => o.found.map (deletedOfFound cfg.dry_run)) _ ?_]
  · exact flatMap_map_snd HandlerOut.found (deletedOfFound cfg.dry_run) _
  · intro o ho
    simp only [sweepOuts, List.mem_map] at ho
    obtain ⟨k, _, rfl⟩ := ho
    exact kindResult_mirror k cfg st

theorem lookupCount_deleted_dry (ts : Int) (cfg : SweepConfig) (st : ProviderState)
    (h : cfg.dry_run = true) (k : String) :
    lookupCount (sweep ts cfg st).1.resources_deleted k = 0 := by
  rw [sweep_deleted_eq_map, h]
  have : (deletedOfFound true) = (fun p : String × Nat => (p.1, 0)) := by
    funext p; simp [deletedOfFound]
  rw [this]
  exact lookupCount_map_zero k _

theorem lookupCount_deleted_nondry (ts : Int) (cfg : SweepConfig) (st : ProviderState)
    (h : cfg.dry_run = false) (k : String) :
    lookupCount (sweep ts cfg st).1.resources_deleted k =
      lookupCount (sweep ts cfg st).1.resources_found k := by
  rw [sweep_deleted_eq_map, h]
  have : (deletedOfFound false) = (fun p : String × Nat => (p.1, p.2)) := by
    funext p; simp [deletedOfFound]
  rw [this, map_fst_snd_id]

/-- C1: in every dry-run configuration a complete sweep issues no
delete/deregister/release provider call and every kind's deleted counter
reads zero; and in every configuration (dry-run or not) every kind's found
counter is at least its deleted counter. -/
theorem dry_run_invariant :
    (∀ (ts : Int) (cfg : SweepConfig) (st : ProviderState), cfg.dry_run = true →
       (sweep ts cfg st).2 = [] ∧
       ∀ k, lookupCount (sweep ts cfg st).1.resources_deleted k = 0) ∧
    (∀ (ts : Int) (cfg : SweepConfig) (st : ProviderState) (k : String),
       lookupCount (sweep ts cfg st).1.resources_deleted k ≤
         lookupCount (sweep ts cfg st).1.resources_found k) := by
  constructor
  · intro ts cfg st h
    exact ⟨sweep_calls_dry ts cfg st h, fun k => lookupCount_deleted_dry ts cfg st h k⟩
  · intro ts cfg st k
    cases h : cfg.dry_run with
    | true => rw [lookupCount_deleted_dry ts cfg st h k]; exact Nat.zero_le _
    | false => rw [lookupCount_deleted_nondry ts cfg st h k]

/-- C1 witness: the dry-run default configuration on a concrete state. -/
theorem dry_run_invariant_witness :
    (sweep 0 cfgDefault stEmpty).2 = [] ∧
    lookupCount (sweep 0 cfgDefault stEmpty).1.resources_deleted "ebs_volumes" = 0 ∧
    lookupCount (sweep 0 cfgDefault stEmpty).1.resources_deleted "ecr_images" ≤
      lookupCount (sweep 0 cfgDefault stEmpty).1.resources_found "ecr_images" :=
  ⟨(dry_run_invariant.1 0 cfgDefault stEmpty rfl).1,
   (dry_run_invariant.1 0 cfgDefault stEmpty rfl).2 "ebs_volumes",
   dry_run_invariant.2 0 cfgDefault stEmpty "ecr_images"⟩

/-- C8: with a fixed backing provider state, a dry-run sweep leaves the
state untouched (its destructive-call trace is empty) and a second sweep at
any other invocation timestamp returns the identical summary, differing
only in the timestamp field. -/
theorem dry_run_idempotent (ts1 ts2 : Int) (cfg : SweepConfig) (st : ProviderState)
    (h : cfg.dry_run = true) :
    applyCalls st (sweep ts1 cfg st).2 = st ∧
    (sweep ts2 cfg (applyCalls st (sweep ts1 cfg st).2)).1 =
      { (sweep ts1 cfg st).1 with timestamp := ts2 } := by
  have hc : (sweep ts1 cfg st).2 = [] := sweep_calls_dry ts1 cfg st h
  rw [hc]
  exact ⟨rfl, sweep_swap_ts ts1 ts2 cfg st⟩

/-- C8 witness: the dry-run default configuration on a concrete state. -/
theorem dry_run_idempotent_witness :
    applyCalls stEmpty (sweep 0 cfgDefault stEmpty).2 = stEmpty ∧
    (sweep 7 cfgDefault (applyCalls stEmpty (sweep 0 cfgDefault stEmpty).2)).1 =
      { (sweep 0 cfgDefault stEmpty).1 with timestamp := 7 } :=
  dry_run_idempotent 0 7 cfgDefault stEmpty rfl

/-- C10: in every real (non-dry-run) configuration each kind's deleted
counter equals its found counter; and in the EBS volume and EBS snapshot
handlers a reclaimable record whose delete call raises is still tallied
for deletion, with the failure recorded as an error string. -/
theorem nondry_deleted_counts (ts : Int) (cfg : SweepConfig) (st : ProviderState)
    (h : cfg.dry_run = false) :
    (∀ k, lookupCount (sweep ts cfg st).1.resources_deleted k =
          lookupCount (sweep ts cfg st).1.resources_found k) ∧
    (∀ (vs : List Volume) (v : Volume) (e : String), v ∈ vs →
       is_whitelisted cfg v.volumeId v.tags = false →
       is_old_enough cfg v.createTime = true →
       v.deleteErr = some e →
       v.volumeId ∈ (ebsVolumesLoop cfg vs).toDelete ∧
       ("Failed to delete volume " ++ v.volumeId ++ ": " ++ e) ∈
         (ebsVolumesLoop cfg vs).errs) ∧
    (∀ (ss : List Snapshot) (s : Snapshot) (e : String), s ∈ ss →
       startswith s.description "Created by CreateImage" = false →
       is_whitelisted cfg s.snapshotId s.tags = false →
       is_old_enough cfg s.startTime = true →
       s.deleteErr = some e →
       s.snapshotId ∈ (ebsSnapshotsLoop cfg ss).toDelete ∧
       ("Failed to delete snapshot " ++ s.snapshotId ++ ": " ++ e) ∈
         (ebsSnapshotsLoop cfg ss).errs) := by
  refine ⟨fun k => lookupCount_deleted_nondry ts cfg st h k, ?_, ?_⟩
  · intro vs v e hv hwl hold herr
    exact ⟨ebsVolumesLoop_mem cfg vs v hv hwl hold,
           ebsVolumesLoop_errs_mem cfg h vs v e hv hwl hold herr⟩
  · intro ss s e hs hami hwl hold herr
    exact ⟨ebsSnapshotsLoop_mem cfg ss s hs hami hwl hold,
           ebsSnapshotsLoop_errs_mem cfg h ss s e hs hami hwl hold herr⟩

/-- C10 witness: the non-dry-run configuration on the failing volume. -/
theorem nondry_deleted_counts_witness :
    lookupCount (sweep 0 cfgReal stFail).1.resources_deleted "ebs_volumes" =
      lookupCount (sweep 0 cfgReal stFail).1.resources_found "ebs_volumes" ∧
    vFail.volumeId ∈ (ebsVolumesLoop cfgReal [vFail]).toDelete ∧
    ("Failed to delete volume " ++ vFail.volumeId ++ ": " ++ "VolumeInUse") ∈
      (ebsVolumesLoop cfgReal [vFail]).errs :=
  ⟨(nondry_deleted_counts 0 cfgReal stFail rfl).1 "ebs_volumes",
   ((nondry_deleted_counts 0 cfgReal stFail rfl).2.1 [vFail] vFail "VolumeInUse"
      (List.mem_cons_self _ _) (by decide) (by decide) rfl).1,
   ((nondry_deleted_counts 0 cfgReal stFail rfl).2.1 [vFail] vFail "VolumeInUse"
      (List.mem_cons_self _ _) (by decide) (by decide) rfl).2⟩

/-- C3: the age check treats a missing timestamp as old enough (fail
open), and for a present timestamp it passes exactly when the difference
to the clock, in whole (floor) days, reaches the threshold — equivalently,
when the difference in seconds reaches the threshold times 86400. -/
theorem age_check_fail_open (cfg : SweepConfig) :
    is_old_enough cfg none = true ∧
    (∀ t : Int, is_old_enough cfg (some t) = true ↔
       cfg.age_threshold_days * 86400 ≤ cfg.now - t) := by
  refine ⟨rfl, fun t => ?_⟩
  simp only [is_old_enough, decide_eq_true_eq]
  rw [Int.fdiv_eq_ediv _ (by norm_num : (0 : ℤ) ≤ 86400)]
  exact Int.le_ediv_iff_mul_le (by norm_num)

/-- C6: a fault in one handler's primary list/describe call yields exactly
one error string for that handler and an empty call trace from it, leaves
every other handler's output untouched, and the sweep still returns a
summary whose error list and found counters are the concatenation over all
enabled handlers. -/
theorem handler_fault_isolated (cfg : SweepConfig) (st : ProviderState) (k : Kind)
    (e : String) (ts : Int) :
    (kindResult k cfg (setListingError k e st)).errs = [kindErrMsg k e] ∧
    (kindResult k cfg (setListingError k e st)).calls = [] ∧
    (kindResult k cfg (setListingError k e st)).found = [] ∧
    (∀ j, j ≠ k → kindResult j cfg (setListingError k e st) = kindResult j cfg st) ∧
    (sweep ts cfg (setListingError k e st)).1.errors =
      (kindOrder.filter (fun j => kindEnabled cfg j)).flatMap
        (fun j => (kindResult j cfg (setListingError k e st)).errs) ∧
    (sweep ts cfg (setListingError k e st)).1.resources_found =
      (kindOrder.filter (fun j => kindEnabled cfg j)).flatMap
        (fun j => (kindResult j cfg (setListingError k e st)).found) := by
  refine ⟨?_, ?_, ?_, ?_, ?_, ?_⟩
  · cases k <;> rfl
  · cases k <;> rfl
  · cases k <;> rfl
  · intro j hj
    cases j <;> cases k <;> first | rfl | exact absurd rfl hj
  · rw [sweep_errors]
    simp only [sweepOuts]
    rw [map_flatMap]
  · rw [sweep_found]
    simp only [sweepOuts]
    rw [map_flatMap]

/-- C6 witness: an EBS volume listing fault on a concrete state leaves the
snapshot handler untouched. -/
theorem handler_fault_isolated_witness :
    (kindResult .ebsVolumes cfgDefault
        (setListingError .ebsVolumes "boom" stEmpty)).errs =
      [kindErrMsg .ebsVolumes "boom"] ∧
    kindResult .ebsSnapshots cfgDefault (setListingError .ebsVolumes "boom" stEmpty) =
      kindResult .ebsSnapshots cfgDefault stEmpty :=
  ⟨(handler_fault_isolated cfgDefault stEmpty .ebsVolumes "boom" 0).1,
   (handler_fault_isolated cfgDefault stEmpty .ebsVolumes "boom" 0).2.2.2.1
     .ebsSnapshots (by decide)⟩

/-- C7: the notification message lists under Resources Found exactly the
kinds with a non-zero count, carries a Resources Deleted section exactly
when the run is not a dry run, shows at most ten error entries, appends the
dry-run footnote exactly when the run is a dry run; and the returned
summary never depends on a publish failure. -/
theorem notification_properties (region : String) (s : SweepSummary) (ts : Int)
    (cfg : SweepConfig) (st : ProviderState) :
    (∀ p, p ∈ (build_notification region s).found_lines ↔
       p ∈ s.resources_found ∧ 0 < p.2) ∧
    ((build_notification region s).deleted_section = none ↔ s.dry_run = true) ∧
    (build_notification region s).error_lines.length ≤ 10 ∧
    ((build_notification region s).dry_run_note = s.dry_run) ∧
    (∀ perr : Option String, (handler ts cfg st perr).1 = (sweep ts cfg st).1) := by
  refine ⟨?_, ?_, ?_, rfl, fun _ => rfl⟩
  · intro p
    simp [build_notification, List.mem_filter]
  · cases h : s.dry_run <;> simp [build_notification, h]
  · simp only [build_notification]
    rw [List.length_take]
    exact min_le_left _ _

/-- C2 counterexample: under the default configuration the empty string is
a configured whitelist prefix and every name starts with it, yet the
whitelist predicate rejects the record and the volume handler still
reclaims it — the claim fails for empty configured entries. -/
theorem whitelist_empty_prefix_cex :
    "" ∈ cfgDefault.whitelist_prefixes ∧
    startswith vEx.volumeId "" = true ∧
    is_whitelisted cfgDefault vEx.volumeId vEx.tags = false ∧
    (ebsVolumesLoop cfgDefault [vEx]).toDelete = [vEx.volumeId] := by decide

/-- C2 amended: a record whose name starts with a configured non-empty
whitelist prefix, or whose tag set contains a configured non-empty
whitelist tag key, is whitelisted; every volume the handler tallies comes
from a non-whitelisted record, and a whitelisted volume is excluded for
every age, size and occupancy status. -/
theorem whitelist_match_retains (cfg : SweepConfig) (name : String)
    (tags : List (String × String))
    (h : (∃ p, p ∈ cfg.whitelist_prefixes ∧ p ≠ "" ∧ startswith name p = true) ∨
         (∃ tk, tk ∈ cfg.whitelist_tags ∧ tk ≠ "" ∧
            tags.any (fun q => q.1 == tk) = true)) :
    is_whitelisted cfg name tags = true ∧
    (∀ (vs : List Volume) (id : String), id ∈ (ebsVolumesLoop cfg vs).toDelete →
       ∃ v, v ∈ vs ∧ v.volumeId = id ∧ is_whitelisted cfg v.volumeId v.tags = false) ∧
    (∀ (status : String) (ct : Option Int) (sz : Nat) (de : Option String),
       (ebsVolumesLoop cfg [⟨name, status, tags, ct, sz, de⟩]).toDelete = []) := by
  have hwl : is_whitelisted cfg name tags = true := by
    rcases h with ⟨p, hp, hpe, hps⟩ | ⟨tk, htk, htke, htks⟩
    · have h1 : cfg.whitelist_prefixes.any
          (fun p => !(p == "") && startswith name p) = true :=
        List.any_eq_true.mpr ⟨p, hp, by simp [hpe, hps]⟩
      simp [is_whitelisted, h1]
    · by_cases h1 : cfg.whitelist_prefixes.any
          (fun p => !(p == "") && startswith name p) = true
      · simp [is_whitelisted, h1]
      · have h2 : (!tags.isEmpty && cfg.whitelist_tags.any
            (fun k => !(k == "") && tags.any (fun q => q.1 == k))) = true := by
          rw [Bool.and_eq_true]
          constructor
          · obtain ⟨q, hq, _⟩ := List.any_eq_true.mp htks
            cases tags with
            | nil => exact absurd hq (List.not_mem_nil q)
            | cons _ _ => rfl
          · exact List.any_eq_true.mpr ⟨tk, htk, by simp [htke, htks]⟩
        simp [is_whitelisted, h1, h2]
  refine ⟨hwl, ?_, ?_⟩
  · intro vs id hid
    obtain ⟨v, hv, hid', hwl', _⟩ := ebsVolumesLoop_sound cfg vs id hid
    exact ⟨v, hv, hid', hwl'⟩
  · intro status ct sz de
    simp [ebsVolumesLoop, hwl]

/-- C2 amended witness: a prefixed name on the prefixed configuration. -/
theorem whitelist_match_retains_witness :
    is_whitelisted cfgPrefixed "team-x" [] = true ∧
    (ebsVolumesLoop cfgPrefixed
        [⟨"team-x", "available", [], some 0, 5, none⟩]).toDelete = [] :=
  ⟨(whitelist_match_retains cfgPrefixed "team-x" []
      (Or.inl ⟨"team-", by decide, by decide, by decide⟩)).1,
   (whitelist_match_retains cfgPrefixed "team-x" []
      (Or.inl ⟨"team-", by decide, by decide, by decide⟩)).2.2
     "available" (some 0) 5 none⟩

/-- C4 counterexample: a repository of fifteen untagged images (none
protected) yields zero reclaimable registry images, not five — the handler
skips every image without a tag. -/
theorem ecr_untagged_cex :
    imgs15untagged.length = 15 ∧
    (∀ i ∈ imgs15untagged, i.imageTag = none) ∧
    is_whitelisted cfgDefault repoUntagged.repositoryName [] = false ∧
    (cleanup_ecr_images cfgDefault (.ok [repoUntagged])).found =
      [("ecr_images", 0)] := by decide

/-- C4 amended: when every listed image bears a non-protected tag, the
handler marks reclaimable exactly the images before the ten last-listed
(none when at most ten); and anything it marks is a listed image bearing a
tag outside latest/prod/production/stable — so protected-tag images and
untagged images are never marked. -/
theorem ecr_keeps_last_ten (imgs : List EcrImage)
    (h : imgs.all nonProtectedTagged = true) :
    ecrToDelete imgs = imgs.take (imgs.length - 10) ∧
    (∀ (imgs2 : List EcrImage) (i : EcrImage), i ∈ ecrToDelete imgs2 →
       nonProtectedTagged i = true ∧ i ∈ imgs2) := by
  constructor
  · have hc : ecrCandidates imgs = imgs :=
      List.filter_eq_self.mpr (List.all_eq_true.mp h)
    simp only [ecrToDelete, hc]
    by_cases hlen : 10 < imgs.length
    · rw [if_pos hlen]
    · rw [if_neg hlen]
      rw [Nat.sub_eq_zero_of_le (Nat.le_of_not_lt hlen), List.take_zero]
  · intro imgs2 i hi
    have hmem : i ∈ ecrCandidates imgs2 := by
      simp only [ecrToDelete] at hi
      by_cases hlen : 10 < (ecrCandidates imgs2).length
      · rw [if_pos hlen] at hi
        exact List.take_subset _ _ hi
      · rw [if_neg hlen] at hi
        exact absurd hi (List.not_mem_nil i)
    have hf := List.mem_filter.mp hmem
    exact ⟨hf.2, hf.1⟩

/-- C4 amended witness: fifteen unprotected tagged images give exactly the
first five (all but the ten last-listed). -/
theorem ecr_keeps_last_ten_witness :
    imgs15tagged.all nonProtectedTagged = true ∧
    ecrToDelete imgs15tagged = imgs15tagged.take (imgs15tagged.length - 10) ∧
    imgs15tagged.length - 10 = 5 :=
  ⟨by decide, (ecr_keeps_last_ten imgs15tagged (by decide)).1, by decide⟩

/-- C5 counterexample: a 40-day-old non-whitelisted load balancer whose
only target reports unhealthy — so it has zero healthy targets — is
retained, not reclaimed: the handler retains on any registered target. -/
theorem lb_unhealthy_target_cex :
    lbUnhealthy.targetGroups = .ok [tgUnhealthy] ∧
    tgUnhealthy.healthQuery = .ok ["unhealthy"] ∧
    is_whitelisted cfgLb lbUnhealthy.loadBalancerName [] = false ∧
    is_old_enough cfgLb lbUnhealthy.createdTime = true ∧
    (loadBalancersLoop cfgLb [lbUnhealthy]).toDelete = [] := by decide

/-- C5 amended: an old non-whitelisted load balancer is reclaimable exactly
when no target group has any registered target at all (an empty
target-health list everywhere); one registered target — in any state,
healthy or not — retains it; and everything reclaimed is backed by such a
record. -/
theorem lb_occupancy_retention (cfg : SweepConfig) (lbs : List LoadBalancer)
    (lb : LoadBalancer) (tgs : List TargetGroup)
    (hwl : is_whitelisted cfg lb.loadBalancerName [] = false)
    (hold : is_old_enough cfg lb.createdTime = true)
    (htg : lb.targetGroups = .ok tgs) :
    (checkTargets tgs = some false ↔
       ∀ tg ∈ tgs, tg.healthQuery = .ok ([] : List String)) ∧
    (checkTargets tgs = some false → lb ∈ lbs →
       lb.loadBalancerArn ∈ (loadBalancersLoop cfg lbs).toDelete) ∧
    (checkTargets tgs = some true → (loadBalancersLoop cfg [lb]).toDelete = []) ∧
    (∀ (lbs2 : List LoadBalancer) (a : String),
       a ∈ (loadBalancersLoop cfg lbs2).toDelete →
       ∃ l2 tgs2, l2 ∈ lbs2 ∧ l2.loadBalancerArn = a ∧
         is_whitelisted cfg l2.loadBalancerName [] = false ∧
         l2.targetGroups = .ok tgs2 ∧ checkTargets tgs2 = some false ∧
         is_old_enough cfg l2.createdTime = true) := by
  refine ⟨checkTargets_eq_false_iff tgs, ?_, ?_, loadBalancersLoop_sound cfg⟩
  · intro hct hm
    exact loadBalancersLoop_mem cfg lbs lb tgs hm hwl htg hct hold
  · intro hct
    simp [loadBalancersLoop, hwl, htg, hct]

/-- C5 amended witness: the target-less load balancer is reclaimed, the
one with an unhealthy target is retained. -/
theorem lb_occupancy_retention_witness :
    lbNoTargets.loadBalancerArn ∈ (loadBalancersLoop cfgLb [lbNoTargets]).toDelete ∧
    (loadBalancersLoop cfgLb [lbUnhealthy]).toDelete = [] :=
  ⟨(lb_occupancy_retention cfgLb [lbNoTargets] lbNoTargets [tgEmpty]
      (by decide) (by decide) rfl).2.1 (by decide) (List.mem_cons_self _ _),
   (lb_occupancy_retention cfgLb [lbUnhealthy] lbUnhealthy [tgUnhealthy]
      (by decide) (by decide) rfl).2.2.1 (by decide)⟩

/-- C9: the comma-split of the empty string is the singleton empty string,
the default (empty) whitelist configuration never whitelists any record,
and in general only a non-empty configured prefix or tag key can produce a
whitelist match. -/
theorem empty_whitelist_entries_ignored :
    pySplit ',' "" = [""] ∧
    (∀ (name : String) (tags : List (String × String)),
       is_whitelisted cfgDefault name tags = false) ∧
    (∀ (cfg : SweepConfig) (name : String) (tags : List (String × String)),
       is_whitelisted cfg name tags = true →
       (∃ p, p ∈ cfg.whitelist_prefixes ∧ p ≠ "" ∧ startswith name p = true) ∨
       (∃ tk, tk ∈ cfg.whitelist_tags ∧ tk ≠ "" ∧
          tags.any (fun q => q.1 == tk) = true)) := by
  refine ⟨by decide, ?_, ?_⟩
  · intro name tags
    have h1 : cfgDefault.whitelist_prefixes = [""] := by decide
    have h2 : cfgDefault.whitelist_tags = [""] := by decide
    simp [is_whitelisted, h1, h2]
  · intro cfg name tags h
    simp only [is_whitelisted] at h
    by_cases h1 : cfg.whitelist_prefixes.any
        (fun p => !(p == "") && startswith name p) = true
    · left
      obtain ⟨p, hp, hcond⟩ := List.any_eq_true.mp h1
      rw [Bool.and_eq_true] at hcond
      refine ⟨p, hp, ?_, hcond.2⟩
      intro hpe
      rw [hpe] at hcond
      simpa using hcond.1
    · right
      rw [if_neg h1] at h
      by_cases h2 : (!tags.isEmpty && cfg.whitelist_tags.any
          (fun k => !(k == "") && tags.any (fun q => q.1 == k))) = true
      · rw [Bool.and_eq_true] at h2
        obtain ⟨tk, htk, hcond⟩ := List.any_eq_true.mp h2.2
        rw [Bool.and_eq_true] at hcond
        refine ⟨tk, htk, ?_, hcond.2⟩
        intro htke
        rw [htke] at hcond
        simpa using hcond.1
      · rw [if_neg h2] at h
        exact absurd h (by simp)

/-- C9 witness: the default configuration whitelists nothing; a non-empty
prefix match is recovered from a successful whitelist test. -/
theorem empty_whitelist_entries_ignored_witness :
    is_whitelisted cfgDefault "vol-1" [("Name", "x")] = false ∧
    ((∃ p, p ∈ cfgPrefixed.whitelist_prefixes ∧ p ≠ "" ∧
        startswith "team-x" p = true) ∨
     (∃ tk, tk ∈ cfgPrefixed.whitelist_tags ∧ tk ≠ "" ∧
        ([("Name", "v")] : List (String × String)).any (fun q => q.1 == tk) = true)) :=
  ⟨empty_whitelist_entries_ignored.2.1 "vol-1" [("Name", "x")],
   empty_whitelist_entries_ignored.2.2 cfgPrefixed "team-x" [("Name", "v")]
     (by decide)⟩

end AwsCleanup
